import Mathlib

/-!
Verification of the rail interlocking / train dispatcher data model and the
route-reservation engine described in its specification.

The repository source (`src/rail_types.py`) defines the static and dynamic
data model (nodes, track segments, routes/Fahrstrassen, route requests,
schedule entries, trains).  The operational logic of the Interlocking
Engine, the Route Registry and the Train Kinematics component is described
in the specification only; those operations are modelled here from the
spec's words and marked as such.  Real-valued quantities (lengths, speeds,
offsets) are embedded as rationals.
-/

set_option maxHeartbeats 1600000

/-- The four kinds of nodes of the physical infrastructure
(`KnotenTyp` in `rail_types.py`). -/
inductive KnotenTyp where
  | SIGNAL
  | WEICHE
  | STRECKEN_ENDE
  | AUFLOESEPUNKT
deriving DecidableEq, Repr

/-- The physical states a train can be in (`ZugStatus` in `rail_types.py`). -/
inductive ZugStatus where
  | STEHEND
  | BESCHLEUNIGEND
  | FAHREND
  | BREMSEND
deriving DecidableEq, Repr

/-- A node of the rail network graph (`Knotenpunkt` in `rail_types.py`). -/
structure Knotenpunkt where
  knoten_id : String
  typ : KnotenTyp
  kilometrierung : ℚ
  koordinate_x : ℚ
  koordinate_y : ℚ
deriving DecidableEq, Repr

/-- An undirected track segment between two nodes
(`Gleisabschnitt` in `rail_types.py`). -/
structure Gleisabschnitt where
  abschnitt_id : String
  knoten_a_id : String
  knoten_b_id : String
  laenge : ℚ
  geschwindigkeitslimit : ℚ
deriving DecidableEq, Repr

/-- A train's request for a route (`RoutenAnforderung` in `rail_types.py`). -/
structure RoutenAnforderung where
  zug_id : String
  fahrstrasse_id : String
  zeitstempel : ℕ
deriving DecidableEq, Repr

/-- A secured directed route (`Fahrstrasse` in `rail_types.py`): static
fields and the dynamic state mutated by the Interlocking Engine. -/
structure Fahrstrasse where
  fahrstrasse_id : String
  gleisabschnitte : List String
  von_knoten_id : String
  bis_knoten_id : String
  laenge : ℚ
  konfligierende_fahrstrassen : List String
  anforderungs_warteschlange : List RoutenAnforderung := []
  belegt_von_zug_id : Option String := none
  reserviert_fuer_zug_id : Option String := none
  blockiert_durch_konflikt_ids : List String := []
deriving DecidableEq, Repr

/-- Constructing a `Fahrstrasse` from its static fields only, exactly as the
Python dataclass does when the caller passes the non-default fields: the
queue, the occupancy, the reservation and the blocked list take their
declared defaults. -/
def Fahrstrasse.neu (fahrstrasse_id : String) (gleisabschnitte : List String)
    (von_knoten_id bis_knoten_id : String) (laenge : ℚ)
    (konfligierende_fahrstrassen : List String) : Fahrstrasse :=
  { fahrstrasse_id := fahrstrasse_id
    gleisabschnitte := gleisabschnitte
    von_knoten_id := von_knoten_id
    bis_knoten_id := bis_knoten_id
    laenge := laenge
    konfligierende_fahrstrassen := konfligierende_fahrstrassen }

/-- One step of a train's schedule (`FahrplanEintrag` in `rail_types.py`). -/
structure FahrplanEintrag where
  fahrstrasse_id : String
  signal_id : String
  geplante_ankunft : Option ℕ := none
  geplante_abfahrt : Option ℕ := none
deriving DecidableEq, Repr

/-- A train with its static properties and dynamic simulation state
(`Zug` in `rail_types.py`).  The position anchor is the triple
(kind, element id, offset in meters). -/
structure Zug where
  zug_id : String
  zug_typ : String
  laenge : ℚ
  max_geschwindigkeit : ℚ
  beschleunigung : ℚ
  bremsverzoegerung : ℚ
  fahrplan : List FahrplanEintrag
  status : ZugStatus := ZugStatus.STEHEND
  aktuelle_geschwindigkeit : ℚ := 0
  aktuelle_position : String × String × ℚ := ("knoten", "start_node", 0)
  verspaetung : ℤ := 0
  naechster_fahrplan_eintrag_idx : ℕ := 0
  hat_route_angefordert_naechste : Bool := false
  hat_route_angefordert_uebernaechste : Bool := false
deriving DecidableEq, Repr

/-- Constructing a `Zug` from its static fields only, exactly as the Python
dataclass does: every dynamic field takes its declared default. -/
def Zug.neu (zug_id zug_typ : String) (laenge max_geschwindigkeit : ℚ)
    (beschleunigung bremsverzoegerung : ℚ)
    (fahrplan : List FahrplanEintrag) : Zug :=
  { zug_id := zug_id
    zug_typ := zug_typ
    laenge := laenge
    max_geschwindigkeit := max_geschwindigkeit
    beschleunigung := beschleunigung
    bremsverzoegerung := bremsverzoegerung
    fahrplan := fahrplan }

/-!
## Interlocking Engine

The engine's operations (`submitRequest`, `tryGrant`, `confirmOccupancy`,
`releaseRoute`) are described in the specification only; the source
repository contains just the data model. They are modelled here from the
spec's words, over a state holding all routes.
-/

/-- Runtime state error of the engine (spec error taxonomy: engine
invariant violated, e.g. occupancy confirmed without reservation). -/
inductive StateError where
  | desync : String → StateError
deriving DecidableEq, Repr

/-- Modelled from the spec: the Interlocking Engine's state, the collection
of all routes with their dynamic fields (the registry's static fields are
carried along unchanged). -/
structure Stellwerk where
  fahrstrassen : List Fahrstrasse
deriving DecidableEq, Repr

/-- Look up a route by its identity. -/
def findFahrstrasse (s : Stellwerk) (rid : String) : Option Fahrstrasse :=
  s.fahrstrassen.find? (fun fs => fs.fahrstrasse_id = rid)

/-- Insert a string into a sorted list of strings, keeping ascending order. -/
def fuegeSortiertEin (a : String) : List String → List String
  | [] => [a]
  | b :: r => if compare a b = Ordering.gt then b :: fuegeSortiertEin a r else a :: b :: r

/-- Sort a list of route identities into ascending order (insertion sort);
the spec requires cascading grants in ascending route-identity order. -/
def sortiereIds (l : List String) : List String :=
  l.foldr fuegeSortiertEin []

/-- Modelled from the spec: `tryGrant(routeId)`.  If the route's queue is
non-empty and `occupiedBy`, `reservedFor` and `blockedByConflicts` are all
empty, pop the head request, set `reservedFor` to its train, and add this
route's id to the blocked set of every conflicting route.  Returns the new
state and whether a grant occurred; in every other case the state is
returned unchanged. -/
def tryGrant (s : Stellwerk) (rid : String) : Stellwerk × Bool :=
  match findFahrstrasse s rid with
  | none => (s, false)
  | some fs =>
    match fs.anforderungs_warteschlange with
    | [] => (s, false)
    | anf :: rest =>
      if fs.belegt_von_zug_id = none ∧ fs.reserviert_fuer_zug_id = none ∧
          fs.blockiert_durch_konflikt_ids = [] then
        (⟨s.fahrstrassen.map (fun gs =>
          if gs.fahrstrasse_id = rid then
            { gs with reserviert_fuer_zug_id := some anf.zug_id,
                      anforderungs_warteschlange := rest }
          else if gs.fahrstrasse_id ∈ fs.konfligierende_fahrstrassen then
            { gs with blockiert_durch_konflikt_ids :=
                gs.blockiert_durch_konflikt_ids.insert rid }
          else gs)⟩, true)
      else (s, false)

/-- Modelled from the spec: the first half of `submitRequest` — construct a
`RouteRequest` and append it to the route's queue. -/
def haengeAnforderungAn (s : Stellwerk) (zid rid : String) (tick : ℕ) : Stellwerk :=
  ⟨s.fahrstrassen.map (fun gs =>
    if gs.fahrstrasse_id = rid then
      { gs with anforderungs_warteschlange :=
          gs.anforderungs_warteschlange ++ [⟨zid, rid, tick⟩] }
    else gs)⟩

/-- Modelled from the spec: `submitRequest(trainId, routeId, tick)`
constructs a `RouteRequest`, appends it to the route's queue, and then
triggers `tryGrant(routeId)`. -/
def submitRequest (s : Stellwerk) (zid rid : String) (tick : ℕ) : Stellwerk :=
  (tryGrant (haengeAnforderungAn s zid rid tick) rid).1

/-- Modelled from the spec: `confirmOccupancy(routeId, trainId, tick)`.
Precondition `reservedFor == trainId`; effects `occupiedBy := trainId`,
`reservedFor := none`; fails with a `StateError` otherwise. -/
def confirmOccupancy (s : Stellwerk) (rid zid : String) (_tick : ℕ) :
    Except StateError Stellwerk :=
  match findFahrstrasse s rid with
  | none => .error (.desync rid)
  | some fs =>
    if fs.reserviert_fuer_zug_id = some zid then
      .ok ⟨s.fahrstrassen.map (fun gs =>
        if gs.fahrstrasse_id = rid then
          { gs with belegt_von_zug_id := some zid,
                    reserviert_fuer_zug_id := none }
        else gs)⟩
    else .error (.desync rid)

/-- Modelled from the spec: the first half of `releaseRoute` — clear
`occupiedBy` of the released route and remove its id from the blocked set
of every conflicting route. -/
def raeumeFahrstrasse (s : Stellwerk) (rid : String) (konflikte : List String) :
    Stellwerk :=
  ⟨s.fahrstrassen.map (fun gs =>
    if gs.fahrstrasse_id = rid then { gs with belegt_von_zug_id := none }
    else if gs.fahrstrasse_id ∈ konflikte then
      { gs with blockiert_durch_konflikt_ids :=
          gs.blockiert_durch_konflikt_ids.erase rid }
    else gs)⟩

/-- The routes whose blocked set a release of `rid` changes: the conflicting
routes whose blocked set currently contains `rid`. -/
def entblockteRouten (s : Stellwerk) (rid : String) (konflikte : List String) :
    List String :=
  (s.fahrstrassen.filter (fun gs =>
    gs.fahrstrasse_id ∈ konflikte ∧
    rid ∈ gs.blockiert_durch_konflikt_ids)).map (·.fahrstrasse_id)

/-- Call `tryGrant` on each of the given routes in turn. -/
def kaskadiereGrants (l : List String) (s : Stellwerk) : Stellwerk :=
  l.foldl (fun st r => (tryGrant st r).1) s

/-- Modelled from the spec: `releaseRoute(routeId, trainId, tick)`.
Precondition `occupiedBy == trainId`; effects: clear `occupiedBy`, remove
this route's id from the blocked set of every conflicting route, then call
`tryGrant` on every route whose blocked set changed, in ascending
route-identity order. -/
def releaseRoute (s : Stellwerk) (rid zid : String) (_tick : ℕ) :
    Except StateError Stellwerk :=
  match findFahrstrasse s rid with
  | none => .error (.desync rid)
  | some fs =>
    if fs.belegt_von_zug_id = some zid then
      .ok (kaskadiereGrants
        (sortiereIds (entblockteRouten s rid fs.konfligierende_fahrstrassen))
        (raeumeFahrstrasse s rid fs.konfligierende_fahrstrassen))
    else .error (.desync rid)

/-- One engine operation, as a step relation on engine states: a request
submission, a grant attempt, a successful occupancy confirmation or a
successful route release. -/
inductive EngineStep : Stellwerk → Stellwerk → Prop where
  | submit (s : Stellwerk) (zid rid : String) (tick : ℕ) :
      EngineStep s (submitRequest s zid rid tick)
  | grant (s : Stellwerk) (rid : String) :
      EngineStep s (tryGrant s rid).1
  | confirm (s : Stellwerk) (rid zid : String) (tick : ℕ) (s' : Stellwerk) :
      confirmOccupancy s rid zid tick = .ok s' → EngineStep s s'
  | release (s : Stellwerk) (rid zid : String) (tick : ℕ) (s' : Stellwerk) :
      releaseRoute s rid zid tick = .ok s' → EngineStep s s'

/-!
## Route Registry

`computeConflicts()` and the build-time validation are described in the
specification only; they are modelled here from the spec's words.
-/

/-- Modelled from the spec: the loader-supplied registry of nodes, track
segments and routes, validated and immutable before simulation start. -/
structure Streckennetz where
  knoten : List Knotenpunkt
  abschnitte : List Gleisabschnitt
  fahrstrassen : List Fahrstrasse
deriving DecidableEq, Repr

/-- Look up a node by its identity. -/
def findKnoten (netz : Streckennetz) (nid : String) : Option Knotenpunkt :=
  netz.knoten.find? (fun k => k.knoten_id = nid)

/-- Look up a track segment by its identity. -/
def findAbschnitt (netz : Streckennetz) (sid : String) : Option Gleisabschnitt :=
  netz.abschnitte.find? (fun g => g.abschnitt_id = sid)

/-- The segments of a route, resolved against the registry. -/
def abschnitteVon (netz : Streckennetz) (fs : Fahrstrasse) : List Gleisabschnitt :=
  fs.gleisabschnitte.filterMap (findAbschnitt netz)

/-- The common endpoint of two track segments, when they have one. -/
def gemeinsamerKnoten (x y : Gleisabschnitt) : Option String :=
  if x.knoten_a_id = y.knoten_a_id ∨ x.knoten_a_id = y.knoten_b_id then
    some x.knoten_a_id
  else if x.knoten_b_id = y.knoten_a_id ∨ x.knoten_b_id = y.knoten_b_id then
    some x.knoten_b_id
  else none

/-- Modelled from the spec: the interior points of a route, the nodes shared
by consecutive segments of its chain. -/
def innereKnoten (netz : Streckennetz) (fs : Fahrstrasse) : List String :=
  let segs := abschnitteVon netz fs
  (segs.zip segs.tail).filterMap (fun p => gemeinsamerKnoten p.1 p.2)

/-- The branches a route takes at a node: the identities of its segments
adjacent to that node. -/
def zweigeAn (netz : Streckennetz) (fs : Fahrstrasse) (w : String) : List String :=
  ((abschnitteVon netz fs).filter
    (fun seg => seg.knoten_a_id = w ∨ seg.knoten_b_id = w)).map (·.abschnitt_id)

/-- Whether a node is of kind SWITCH in the registry. -/
def istWeiche (netz : Streckennetz) (w : String) : Prop :=
  ∃ k, findKnoten netz w = some k ∧ k.typ = KnotenTyp.WEICHE

instance (netz : Streckennetz) (w : String) : Decidable (istWeiche netz w) := by
  unfold istWeiche
  cases findKnoten netz w with
  | none => exact .isFalse (by simp)
  | some k => simp only [Option.some.injEq]; exact decidable_of_iff (k.typ = KnotenTyp.WEICHE) (by aesop)

/-- Modelled from the spec: two routes require incompatible positions of a
shared switch when some node of kind SWITCH is an interior point of both
and the two routes diverge through it in different branch directions. -/
def weichenUnvertraeglich (netz : Streckennetz) (a b : Fahrstrasse) : Prop :=
  ∃ w ∈ innereKnoten netz a, w ∈ innereKnoten netz b ∧ istWeiche netz w ∧
    ¬ (∀ x ∈ zweigeAn netz a w, x ∈ zweigeAn netz b w) ∨
      w ∈ innereKnoten netz b ∧ istWeiche netz w ∧
    ¬ (∀ x ∈ zweigeAn netz b w, x ∈ zweigeAn netz a w)

instance (netz : Streckennetz) (a b : Fahrstrasse) :
    Decidable (weichenUnvertraeglich netz a b) := by
  unfold weichenUnvertraeglich; infer_instance

/-- Modelled from the spec: two distinct routes conflict when they share at
least one track segment, or when they require incompatible positions of a
shared switch node. -/
def konfliktBedingung (netz : Streckennetz) (a b : Fahrstrasse) : Prop :=
  a.fahrstrasse_id ≠ b.fahrstrasse_id ∧
  ((∃ seg ∈ a.gleisabschnitte, seg ∈ b.gleisabschnitte) ∨
    weichenUnvertraeglich netz a b)

instance (netz : Streckennetz) (a b : Fahrstrasse) :
    Decidable (konfliktBedingung netz a b) := by
  unfold konfliktBedingung; infer_instance

/-- Modelled from the spec: `computeConflicts()` computes, for every route,
the set of routes conflicting with it, and stores it in the route's
`konfligierende_fahrstrassen` field. -/
def berechneKonflikte (netz : Streckennetz) : Streckennetz :=
  { netz with fahrstrassen := netz.fahrstrassen.map (fun fs =>
      let konf := netz.fahrstrassen.filter
        (fun b => decide (konfliktBedingung netz fs b))
      { fs with konfligierende_fahrstrassen := konf.map (·.fahrstrasse_id) }) }

/-- Modelled from the spec: build-time validation of one route.  Every
referenced segment must be known, consecutive segments must be contiguous
(share an endpoint), and the route's total length must be the sum of the
lengths of its segments. -/
def fahrstrasseGueltig (netz : Streckennetz) (fs : Fahrstrasse) : Prop :=
  (∀ sid ∈ fs.gleisabschnitte, (findAbschnitt netz sid).isSome = true) ∧
  (∀ p ∈ (abschnitteVon netz fs).zip (abschnitteVon netz fs).tail,
      (gemeinsamerKnoten p.1 p.2).isSome = true) ∧
  fs.laenge = ((abschnitteVon netz fs).map (·.laenge)).sum

instance (netz : Streckennetz) (fs : Fahrstrasse) :
    Decidable (fahrstrasseGueltig netz fs) := by
  unfold fahrstrasseGueltig; infer_instance

/-- Modelled from the spec: a registry is valid when every one of its routes
passes build-time validation (otherwise the loader fails with a
configuration error before the simulation starts). -/
def registryGueltig (netz : Streckennetz) : Prop :=
  ∀ fs ∈ netz.fahrstrassen, fahrstrasseGueltig netz fs

instance (netz : Streckennetz) : Decidable (registryGueltig netz) := by
  unfold registryGueltig; infer_instance

/-- One elementary engine transition, at the granularity at which the spec's
grant-time invariant speaks: appending a request, a single `tryGrant`, a
successful occupancy confirmation, or the clearing half of a release.  The
compound operations `submitRequest` and `releaseRoute` are chains of these. -/
inductive MicroStep : Stellwerk → Stellwerk → Prop where
  | anhaengen (s : Stellwerk) (zid rid : String) (tick : ℕ) :
      MicroStep s (haengeAnforderungAn s zid rid tick)
  | gewaehren (s : Stellwerk) (rid : String) :
      MicroStep s (tryGrant s rid).1
  | bestaetigen (s : Stellwerk) (rid zid : String) (tick : ℕ) (s' : Stellwerk) :
      confirmOccupancy s rid zid tick = .ok s' → MicroStep s s'
  | raeumen (s : Stellwerk) (rid : String) (konflikte : List String) :
      MicroStep s (raeumeFahrstrasse s rid konflikte)

/-!
## Train Kinematics: position update

The per-tick position recomputation (spec, Kinematics step 2) is described
in the specification only; it is modelled here from the spec's words.
-/

/-- Modelled from the spec: convert forward travel into consumption of the
current segment's remaining length, rolling over into the next segment when
exceeded; a train that exhausts the whole chain stands exactly on the
route's boundary node. -/
def fahreAb (grenze : String) : ℚ → ℚ → List Gleisabschnitt → String × String × ℚ
  | _, _, [] => ("knoten", grenze, 0)
  | off, d, seg :: rest =>
    if off + d < seg.laenge then ("abschnitt", seg.abschnitt_id, off + d)
    else fahreAb grenze 0 (off + d - seg.laenge) rest

/-- The distance left from the current anchor (offset `off` into the head
segment) to the end of the remaining segment chain. -/
def restLaenge (off : ℚ) (segs : List Gleisabschnitt) : ℚ :=
  (segs.map (·.laenge)).sum - off

/-- Modelled from the spec: the per-tick position update.  `segs` is the
remaining segment chain of the current route up to its boundary node
`grenze`, `off` the offset into its head segment, `d` the forward distance
travelled this tick, `v` the train's speed.  If the next route is not yet
granted and the train would cross the boundary, the position is clamped at
the boundary node and the status forced to BREMSEND (or STEHEND at speed
zero); otherwise the anchor rolls forward normally. -/
def positionsUpdate (naechsteGewaehrt : Bool) (status : ZugStatus) (v off d : ℚ)
    (segs : List Gleisabschnitt) (grenze : String) :
    (String × String × ℚ) × ZugStatus :=
  if naechsteGewaehrt = false ∧ restLaenge off segs ≤ d then
    (("knoten", grenze, 0),
      if v = 0 then ZugStatus.STEHEND else ZugStatus.BREMSEND)
  else
    (fahreAb grenze off d segs, status)

/-!
## Invariants and auxiliary predicates
-/

/-- The train currently holding a route: the physical occupant if any,
otherwise the train the route is reserved for. -/
def halter (fs : Fahrstrasse) : Option String :=
  match fs.belegt_von_zug_id with
  | some z => some z
  | none => fs.reserviert_fuer_zug_id

/-- The per-route mutual-exclusion invariant: when `occupiedBy` is set,
`reservedFor` is empty; together with unique route identities. -/
def GuterZustand (s : Stellwerk) : Prop :=
  (s.fahrstrassen.map (·.fahrstrasse_id)).Nodup ∧
  ∀ fs ∈ s.fahrstrassen,
    fs.belegt_von_zug_id ≠ none → fs.reserviert_fuer_zug_id = none

instance (s : Stellwerk) : Decidable (GuterZustand s) := by
  unfold GuterZustand; infer_instance

/-- A route acquires a new holder only from the all-empty state: whenever a
train holds the route afterwards that did not hold it before, the route had
`occupiedBy`, `reservedFor` and `blockedByConflicts` all empty before. -/
def erwirbtNurFrei (a b : Fahrstrasse) : Prop :=
  ∀ z, halter b = some z → halter a ≠ some z →
    a.belegt_von_zug_id = none ∧ a.reserviert_fuer_zug_id = none ∧
    a.blockiert_durch_konflikt_ids = []

/-- Two route records agreeing on their static fields (identity and
conflict set); every engine operation relates old and new states this way. -/
def statischGleich (a b : Fahrstrasse) : Prop :=
  b.fahrstrasse_id = a.fahrstrasse_id ∧
  b.konfligierende_fahrstrassen = a.konfligierende_fahrstrassen

/-- Request `r1` occurs strictly before request `r2` in the queue `q`. -/
def liegtVor (r1 r2 : RoutenAnforderung) (q : List RoutenAnforderung) : Prop :=
  ∃ a b c, q = a ++ r1 :: b ++ r2 :: c

/-- A queue is ordered by timestamp (FIFO; ties are resolved by the
insertion order, i.e. by list position). -/
def zeitlichSortiert (q : List RoutenAnforderung) : Prop :=
  q.Pairwise (fun x y => x.zeitstempel ≤ y.zeitstempel)

/-- How one elementary engine transition can change one route's queue:
leave it alone, append one request at the tail, or pop its head granting it
the reservation — the only three behaviours the engine exhibits (the last
disjunct covers a queue that was empty before the transition). -/
def WarteschlangenSchritt (a b : Fahrstrasse) : Prop :=
  b.anforderungs_warteschlange = a.anforderungs_warteschlange
  ∨ (∃ r, b.anforderungs_warteschlange = a.anforderungs_warteschlange ++ [r])
  ∨ (∃ k t, a.anforderungs_warteschlange = k :: t ∧
      b.reserviert_fuer_zug_id = some k.zug_id ∧
      (b.anforderungs_warteschlange = t ∨
        ∃ r, b.anforderungs_warteschlange = t ++ [r]))
  ∨ a.anforderungs_warteschlange = []

/-!
## Concrete example states
-/

/-- A small engine state: two conflicting routes, `A` with one queued
request and `B` currently reserved. -/
def beispielStellwerk : Stellwerk :=
  ⟨[{ fahrstrasse_id := "A", gleisabschnitte := ["g1"],
      von_knoten_id := "s1", bis_knoten_id := "s2", laenge := 100,
      konfligierende_fahrstrassen := [],
      anforderungs_warteschlange := [⟨"T1", "A", 0⟩, ⟨"T2", "A", 3⟩] },
    { fahrstrasse_id := "B", gleisabschnitte := ["g2"],
      von_knoten_id := "s2", bis_knoten_id := "s3", laenge := 50,
      konfligierende_fahrstrassen := [],
      reserviert_fuer_zug_id := some "T7" }]⟩

/-- A small engine state for the release scenario: route `R` occupied by
train `T1`; route `S` conflicts with `R`, is blocked exactly by `R`, and
has one queued request. -/
def freigabeStellwerk : Stellwerk :=
  ⟨[{ fahrstrasse_id := "R", gleisabschnitte := ["g1"],
      von_knoten_id := "s1", bis_knoten_id := "s2", laenge := 100,
      konfligierende_fahrstrassen := ["S"],
      belegt_von_zug_id := some "T1" },
    { fahrstrasse_id := "S", gleisabschnitte := ["g1"],
      von_knoten_id := "s2", bis_knoten_id := "s1", laenge := 100,
      konfligierende_fahrstrassen := ["R"],
      anforderungs_warteschlange := [⟨"T2", "S", 4⟩],
      blockiert_durch_konflikt_ids := ["R"] }]⟩

/-- An engine state on which the literal release-propagation sentence
fails: `R` is occupied and is the only blocker of both `A` and `B`, each
with one queued request, but `A` and `B` also conflict with each other, so
the cascade grants `A` (first in ascending id order) and thereby blocks
`B` again. -/
def kaskadenStellwerk : Stellwerk :=
  ⟨[{ fahrstrasse_id := "R", gleisabschnitte := ["g1"],
      von_knoten_id := "s1", bis_knoten_id := "s2", laenge := 100,
      konfligierende_fahrstrassen := ["A", "B"],
      belegt_von_zug_id := some "T1" },
    { fahrstrasse_id := "A", gleisabschnitte := ["g2"],
      von_knoten_id := "s2", bis_knoten_id := "s3", laenge := 80,
      konfligierende_fahrstrassen := ["R", "B"],
      anforderungs_warteschlange := [⟨"T2", "A", 2⟩],
      blockiert_durch_konflikt_ids := ["R"] },
    { fahrstrasse_id := "B", gleisabschnitte := ["g3"],
      von_knoten_id := "s2", bis_knoten_id := "s4", laenge := 90,
      konfligierende_fahrstrassen := ["R", "A"],
      anforderungs_warteschlange := [⟨"T3", "B", 2⟩],
      blockiert_durch_konflikt_ids := ["R"] }]⟩

/-- A small registry: three nodes, two contiguous segments, one route over
both segments and a second route over the first segment only. -/
def beispielNetz : Streckennetz :=
  ⟨[⟨"k1", KnotenTyp.SIGNAL, 0, 0, 0⟩,
    ⟨"k2", KnotenTyp.WEICHE, 1, 1, 0⟩,
    ⟨"k3", KnotenTyp.SIGNAL, 2, 2, 0⟩],
   [⟨"g1", "k1", "k2", 1000, 44⟩,
    ⟨"g2", "k2", "k3", 600, 44⟩],
   [{ fahrstrasse_id := "fsA", gleisabschnitte := ["g1", "g2"],
      von_knoten_id := "k1", bis_knoten_id := "k3", laenge := 1600,
      konfligierende_fahrstrassen := [] },
    { fahrstrasse_id := "fsB", gleisabschnitte := ["g1"],
      von_knoten_id := "k2", bis_knoten_id := "k1", laenge := 1000,
      konfligierende_fahrstrassen := [] }]⟩

/-!
## Claims about construction defaults (C9, C10)
-/

/-- C9: a `Fahrstrasse` constructed from its static fields alone starts
with an empty request queue, no occupying train, no reservation and an
empty blocked list — every route begins the simulation free, unreserved
and unblocked. -/
theorem fahrstrasse_neu_startet_frei (fid : String) (segs : List String)
    (von bis : String) (l : ℚ) (konf : List String) :
    (Fahrstrasse.neu fid segs von bis l konf).anforderungs_warteschlange = [] ∧
    (Fahrstrasse.neu fid segs von bis l konf).belegt_von_zug_id = none ∧
    (Fahrstrasse.neu fid segs von bis l konf).reserviert_fuer_zug_id = none ∧
    (Fahrstrasse.neu fid segs von bis l konf).blockiert_durch_konflikt_ids = [] :=
  ⟨rfl, rfl, rfl, rfl⟩

/-- C10: a `Zug` constructed from its static fields alone starts stopped at
the start of its schedule: status `STEHEND`, speed `0`, position
`("knoten", "start_node", 0)`, delay `0`, next schedule index `0`, and
both look-ahead request flags `false`. -/
theorem zug_neu_startet_stehend (zid typ : String) (l vmax a b : ℚ)
    (plan : List FahrplanEintrag) :
    (Zug.neu zid typ l vmax a b plan).status = ZugStatus.STEHEND ∧
    (Zug.neu zid typ l vmax a b plan).aktuelle_geschwindigkeit = 0 ∧
    (Zug.neu zid typ l vmax a b plan).aktuelle_position =
      ("knoten", "start_node", 0) ∧
    (Zug.neu zid typ l vmax a b plan).verspaetung = 0 ∧
    (Zug.neu zid typ l vmax a b plan).naechster_fahrplan_eintrag_idx = 0 ∧
    (Zug.neu zid typ l vmax a b plan).hat_route_angefordert_naechste = false ∧
    (Zug.neu zid typ l vmax a b plan).hat_route_angefordert_uebernaechste = false :=
  ⟨rfl, rfl, rfl, rfl, rfl, rfl, rfl⟩

/-!
## Claim C8: route length is the sum of its segment lengths
-/

lemma abschnitte_map_laenge (netz : Streckennetz) (ids : List String)
    (h : ∀ sid ∈ ids, (findAbschnitt netz sid).isSome = true) :
    (ids.filterMap (findAbschnitt netz)).map (·.laenge) =
      ids.map (fun sid => ((findAbschnitt netz sid).map (·.laenge)).getD 0) := by
  induction ids with
  | nil => rfl
  | cons a t ih =>
    have ha := h a (List.mem_cons_self a t)
    obtain ⟨g, hg⟩ := Option.isSome_iff_exists.mp ha
    simp only [List.filterMap_cons, hg, List.map_cons, Option.map_some,
      Option.getD_some]
    exact congrArg _ (ih (fun sid hs => h sid (List.mem_cons_of_mem _ hs)))

/-- C8: in a validated registry, every route's `laenge` equals the sum of
the `laenge` fields of the track segments of its `gleisabschnitte`
sequence. -/
theorem fahrstrasse_laenge_ist_summe (netz : Streckennetz)
    (h : registryGueltig netz) :
    ∀ fs ∈ netz.fahrstrassen,
      fs.laenge = (fs.gleisabschnitte.map (fun sid =>
        ((findAbschnitt netz sid).map (·.laenge)).getD 0)).sum := by
  intro fs hfs
  obtain ⟨hk, -, hsum⟩ := h fs hfs
  rw [hsum]
  unfold abschnitteVon
  rw [abschnitte_map_laenge netz fs.gleisabschnitte hk]

/-- Witness for C8 on the concrete example registry. -/
theorem fahrstrasse_laenge_ist_summe_zeuge :
    registryGueltig beispielNetz ∧
    ∀ fs ∈ beispielNetz.fahrstrassen,
      fs.laenge = (fs.gleisabschnitte.map (fun sid =>
        ((findAbschnitt beispielNetz sid).map (·.laenge)).getD 0)).sum :=
  have h : registryGueltig beispielNetz := by
    intro fs hfs
    fin_cases hfs
    · refine ⟨by decide, by decide, ?_⟩
      show (1600 : ℚ) =
        (([⟨"g1", "k1", "k2", 1000, 44⟩, ⟨"g2", "k2", "k3", 600, 44⟩] :
          List Gleisabschnitt).map (·.laenge)).sum
      norm_num [List.sum_cons, List.sum_nil]
    · refine ⟨by decide, by decide, ?_⟩
      show (1000 : ℚ) =
        (([⟨"g1", "k1", "k2", 1000, 44⟩] : List Gleisabschnitt).map (·.laenge)).sum
      norm_num [List.sum_cons, List.sum_nil]
  ⟨h, fahrstrasse_laenge_ist_summe beispielNetz h⟩

/-!
## Claim C7: no advance past an ungranted boundary
-/

lemma fahreAb_bleibt_auf_route (grenze : String) :
    ∀ (segs : List Gleisabschnitt) (off d : ℚ), 0 ≤ off → 0 ≤ d →
      off + d < (segs.map (·.laenge)).sum →
      ∃ seg ∈ segs, ∃ o,
        fahreAb grenze off d segs = ("abschnitt", seg.abschnitt_id, o) ∧
        0 ≤ o ∧ o < seg.laenge := by
  intro segs
  induction segs with
  | nil =>
    intro off d hoff hd hlt
    simp only [List.map_nil, List.sum_nil] at hlt
    exact absurd hlt (not_lt.mpr (add_nonneg hoff hd))
  | cons seg rest ih =>
    intro off d hoff hd hlt
    simp only [fahreAb]
    by_cases hc : off + d < seg.laenge
    · exact ⟨seg, List.mem_cons_self _ _, off + d,
        by rw [if_pos hc], add_nonneg hoff hd, hc⟩
    · rw [if_neg hc]
      push_neg at hc
      simp only [List.map_cons, List.sum_cons] at hlt
      obtain ⟨s2, hs2, o, ho, h0, hlen⟩ :=
        ih 0 (off + d - seg.laenge) le_rfl (by linarith) (by linarith)
      exact ⟨s2, List.mem_cons_of_mem _ hs2, o, ho, h0, hlen⟩

/-- C7: when the next route is not granted, the position update never moves
the train past the boundary node.  If the tick's travel would cross the
boundary, the position is clamped exactly at the boundary node and the
status is forced to BREMSEND (or STEHEND at speed zero); otherwise the
train ends the tick strictly inside one of the current route's segments. -/
theorem positionsUpdate_klemmt_ohne_freigabe (status : ZugStatus)
    (v off d : ℚ) (segs : List Gleisabschnitt) (grenze : String)
    (hoff : 0 ≤ off) (hd : 0 ≤ d) :
    (restLaenge off segs ≤ d →
      (positionsUpdate false status v off d segs grenze).1 =
        ("knoten", grenze, 0) ∧
      ((positionsUpdate false status v off d segs grenze).2 =
          ZugStatus.BREMSEND ∨
        (positionsUpdate false status v off d segs grenze).2 =
          ZugStatus.STEHEND)) ∧
    (d < restLaenge off segs →
      (positionsUpdate false status v off d segs grenze).2 = status ∧
      ∃ seg ∈ segs, ∃ o,
        (positionsUpdate false status v off d segs grenze).1 =
          ("abschnitt", seg.abschnitt_id, o) ∧ 0 ≤ o ∧ o < seg.laenge) := by
  constructor
  · intro hcross
    unfold positionsUpdate
    rw [if_pos ⟨rfl, hcross⟩]
    refine ⟨rfl, ?_⟩
    by_cases hv : v = 0
    · rw [if_pos hv]; exact Or.inr rfl
    · rw [if_neg hv]; exact Or.inl rfl
  · intro hlt
    unfold positionsUpdate
    rw [if_neg (fun hcon => absurd hcon.2 (not_le.mpr hlt))]
    refine ⟨rfl, ?_⟩
    unfold restLaenge at hlt
    exact fahreAb_bleibt_auf_route grenze segs off d hoff hd (by linarith)

/-- Witness for C7: a 100 m route, 150 m of travel, next route not granted:
the train is clamped on the boundary node with status BREMSEND. -/
theorem positionsUpdate_klemmt_ohne_freigabe_zeuge :
    ((0 : ℚ) ≤ 0) ∧ ((0 : ℚ) ≤ 150) ∧
    ((restLaenge 0 [⟨"g1", "k1", "k2", 100, 10⟩] ≤ 150 →
      (positionsUpdate false ZugStatus.FAHREND 5 0 150
        [⟨"g1", "k1", "k2", 100, 10⟩] "k2").1 = ("knoten", "k2", 0) ∧
      ((positionsUpdate false ZugStatus.FAHREND 5 0 150
          [⟨"g1", "k1", "k2", 100, 10⟩] "k2").2 = ZugStatus.BREMSEND ∨
        (positionsUpdate false ZugStatus.FAHREND 5 0 150
          [⟨"g1", "k1", "k2", 100, 10⟩] "k2").2 = ZugStatus.STEHEND)) ∧
    (150 < restLaenge 0 [⟨"g1", "k1", "k2", 100, 10⟩] →
      (positionsUpdate false ZugStatus.FAHREND 5 0 150
        [⟨"g1", "k1", "k2", 100, 10⟩] "k2").2 = ZugStatus.FAHREND ∧
      ∃ seg ∈ [(⟨"g1", "k1", "k2", 100, 10⟩ : Gleisabschnitt)], ∃ o,
        (positionsUpdate false ZugStatus.FAHREND 5 0 150
          [⟨"g1", "k1", "k2", 100, 10⟩] "k2").1 =
          ("abschnitt", seg.abschnitt_id, o) ∧ 0 ≤ o ∧ o < seg.laenge)) :=
  ⟨le_refl 0, by norm_num,
    positionsUpdate_klemmt_ohne_freigabe ZugStatus.FAHREND 5 0 150
      [⟨"g1", "k1", "k2", 100, 10⟩] "k2" (le_refl 0) (by norm_num)⟩

/-!
## Claim C6: the computed conflict relation is symmetric and irreflexive
-/

lemma weichenUnvertraeglich_symm (netz : Streckennetz) (a b : Fahrstrasse) :
    weichenUnvertraeglich netz a b ↔ weichenUnvertraeglich netz b a := by
  unfold weichenUnvertraeglich
  constructor
  · rintro ⟨w, hwa, ⟨hwb, hW, hP⟩ | ⟨hwb, hW, hQ⟩⟩
    · exact ⟨w, hwb, Or.inr ⟨hwa, hW, hP⟩⟩
    · exact ⟨w, hwb, Or.inl ⟨hwa, hW, hQ⟩⟩
  · rintro ⟨w, hwb, ⟨hwa, hW, hP⟩ | ⟨hwa, hW, hQ⟩⟩
    · exact ⟨w, hwa, Or.inr ⟨hwb, hW, hP⟩⟩
    · exact ⟨w, hwa, Or.inl ⟨hwb, hW, hQ⟩⟩

lemma konfliktBedingung_symm (netz : Streckennetz) (a b : Fahrstrasse) :
    konfliktBedingung netz a b ↔ konfliktBedingung netz b a := by
  unfold konfliktBedingung
  rw [weichenUnvertraeglich_symm]
  constructor
  · rintro ⟨hne, ⟨seg, hsa, hsb⟩ | hw⟩
    · exact ⟨hne.symm, Or.inl ⟨seg, hsb, hsa⟩⟩
    · exact ⟨hne.symm, Or.inr hw⟩
  · rintro ⟨hne, ⟨seg, hsb, hsa⟩ | hw⟩
    · exact ⟨hne.symm, Or.inl ⟨seg, hsa, hsb⟩⟩
    · exact ⟨hne.symm, Or.inr hw⟩

lemma mem_berechnete_konflikte (netz : Streckennetz) (a0 : Fahrstrasse)
    (x : String) :
    (x ∈ (netz.fahrstrassen.filter
        (fun b => decide (konfliktBedingung netz a0 b))).map (·.fahrstrasse_id)) ↔
      ∃ c ∈ netz.fahrstrassen, c.fahrstrasse_id = x ∧
        konfliktBedingung netz a0 c := by
  simp only [List.mem_map, List.mem_filter, decide_eq_true_eq]
  constructor
  · rintro ⟨c, ⟨hc, hb⟩, hx⟩
    exact ⟨c, hc, hx, hb⟩
  · rintro ⟨c, hc, hx, hb⟩
    exact ⟨c, ⟨hc, hb⟩, hx⟩

/-- C6: after `computeConflicts`, the stored conflict relation is symmetric
(route B is in A's conflict set exactly when A is in B's) and irreflexive
(no route is in its own conflict set). -/
theorem berechneKonflikte_symmetrisch_irreflexiv (netz : Streckennetz)
    (hnd : (netz.fahrstrassen.map (·.fahrstrasse_id)).Nodup) :
    ∀ a ∈ (berechneKonflikte netz).fahrstrassen,
    ∀ b ∈ (berechneKonflikte netz).fahrstrassen,
      (b.fahrstrasse_id ∈ a.konfligierende_fahrstrassen ↔
        a.fahrstrasse_id ∈ b.konfligierende_fahrstrassen) ∧
      a.fahrstrasse_id ∉ a.konfligierende_fahrstrassen := by
  intro a ha b hb
  simp only [berechneKonflikte, List.mem_map] at ha hb
  obtain ⟨a0, ha0, rfl⟩ := ha
  obtain ⟨b0, hb0, rfl⟩ := hb
  simp only [mem_berechnete_konflikte]
  constructor
  · constructor
    · rintro ⟨c, hc, hcid, hbed⟩
      have hcb : c = b0 := List.inj_on_of_nodup_map hnd hc hb0 hcid
      subst hcb
      exact ⟨a0, ha0, rfl, (konfliktBedingung_symm netz a0 c).mp hbed⟩
    · rintro ⟨c, hc, hcid, hbed⟩
      have hca : c = a0 := List.inj_on_of_nodup_map hnd hc ha0 hcid
      subst hca
      exact ⟨b0, hb0, rfl, (konfliktBedingung_symm netz b0 c).mp hbed⟩
  · rintro ⟨c, hc, hcid, hbed⟩
    have hca : c = a0 := List.inj_on_of_nodup_map hnd hc ha0 hcid
    subst hca
    exact hbed.1 rfl

/-- Witness for C6 on the concrete example registry (whose two routes share
segment `g1` and therefore conflict). -/
theorem berechneKonflikte_symmetrisch_irreflexiv_zeuge :
    (beispielNetz.fahrstrassen.map (·.fahrstrasse_id)).Nodup ∧
    ∀ a ∈ (berechneKonflikte beispielNetz).fahrstrassen,
    ∀ b ∈ (berechneKonflikte beispielNetz).fahrstrassen,
      (b.fahrstrasse_id ∈ a.konfligierende_fahrstrassen ↔
        a.fahrstrasse_id ∈ b.konfligierende_fahrstrassen) ∧
      a.fahrstrasse_id ∉ a.konfligierende_fahrstrassen :=
  ⟨by decide, berechneKonflikte_symmetrisch_irreflexiv beispielNetz (by decide)⟩

/-!
## Engine toolkit: lookups through updates
-/

lemma findFahrstrasse_id {s : Stellwerk} {rid : String} {fs : Fahrstrasse}
    (h : findFahrstrasse s rid = some fs) : fs.fahrstrasse_id = rid := by
  unfold findFahrstrasse at h
  have h2 := List.find?_some h
  exact of_decide_eq_true h2

lemma findFahrstrasse_mem {s : Stellwerk} {rid : String} {fs : Fahrstrasse}
    (h : findFahrstrasse s rid = some fs) : fs ∈ s.fahrstrassen :=
  List.mem_of_find?_eq_some h

lemma findFahrstrasse_map (l : List Fahrstrasse) (f : Fahrstrasse → Fahrstrasse)
    (hf : ∀ a, (f a).fahrstrasse_id = a.fahrstrasse_id) (rid : String) :
    findFahrstrasse ⟨l.map f⟩ rid = (findFahrstrasse ⟨l⟩ rid).map f := by
  show (l.map f).find? (fun fs => decide (fs.fahrstrasse_id = rid)) =
    ((l.find? (fun fs => decide (fs.fahrstrasse_id = rid))).map f)
  rw [List.find?_map]
  have hp : ((fun fs : Fahrstrasse => decide (fs.fahrstrasse_id = rid)) ∘ f) =
      (fun fs : Fahrstrasse => decide (fs.fahrstrasse_id = rid)) := by
    funext a
    simp only [Function.comp_apply, hf a]
  rw [hp]

lemma find_nach_map {l : List Fahrstrasse} {f : Fahrstrasse → Fahrstrasse}
    (hf : ∀ a, (f a).fahrstrasse_id = a.fahrstrasse_id) {rid : String}
    {g : Fahrstrasse}
    (hg : findFahrstrasse ⟨l⟩ rid = some g) :
    findFahrstrasse ⟨l.map f⟩ rid = some (f g) := by
  rw [findFahrstrasse_map l f hf rid, hg]
  rfl

/-!
## Engine toolkit: `tryGrant` case analysis
-/

lemma tryGrant_gewaehrt {s : Stellwerk} {rid : String} {fs : Fahrstrasse}
    {anf : RoutenAnforderung} {rest : List RoutenAnforderung}
    (hf : findFahrstrasse s rid = some fs)
    (hq : fs.anforderungs_warteschlange = anf :: rest)
    (hb : fs.belegt_von_zug_id = none)
    (hr : fs.reserviert_fuer_zug_id = none)
    (hbl : fs.blockiert_durch_konflikt_ids = []) :
    tryGrant s rid = (⟨s.fahrstrassen.map (fun gs =>
      if gs.fahrstrasse_id = rid then
        { gs with reserviert_fuer_zug_id := some anf.zug_id,
                  anforderungs_warteschlange := rest }
      else if gs.fahrstrasse_id ∈ fs.konfligierende_fahrstrassen then
        { gs with blockiert_durch_konflikt_ids :=
            gs.blockiert_durch_konflikt_ids.insert rid }
      else gs)⟩, true) := by
  unfold tryGrant
  simp only [hf, hq]
  rw [if_pos ⟨hb, hr, hbl⟩]

lemma tryGrant_keine_route {s : Stellwerk} {rid : String}
    (hf : findFahrstrasse s rid = none) : tryGrant s rid = (s, false) := by
  unfold tryGrant
  simp only [hf]

lemma tryGrant_leere_schlange {s : Stellwerk} {rid : String} {fs : Fahrstrasse}
    (hf : findFahrstrasse s rid = some fs)
    (hq : fs.anforderungs_warteschlange = []) : tryGrant s rid = (s, false) := by
  unfold tryGrant
  simp only [hf, hq]

lemma tryGrant_nicht_frei {s : Stellwerk} {rid : String} {fs : Fahrstrasse}
    (hf : findFahrstrasse s rid = some fs)
    (hcond : ¬(fs.belegt_von_zug_id = none ∧ fs.reserviert_fuer_zug_id = none ∧
      fs.blockiert_durch_konflikt_ids = [])) : tryGrant s rid = (s, false) := by
  unfold tryGrant
  simp only [hf]
  cases hq : fs.anforderungs_warteschlange with
  | nil => rfl
  | cons anf rest => exact if_neg hcond

lemma tryGrant_wirkung {st : Stellwerk} (qid : String) {rid : String}
    {g : Fahrstrasse} (hg : findFahrstrasse st rid = some g) :
    ∃ g', findFahrstrasse (tryGrant st qid).1 rid = some g' ∧
      g'.fahrstrasse_id = g.fahrstrasse_id ∧
      g'.belegt_von_zug_id = g.belegt_von_zug_id ∧
      g'.konfligierende_fahrstrassen = g.konfligierende_fahrstrassen ∧
      ((g'.anforderungs_warteschlange = g.anforderungs_warteschlange ∧
        g'.reserviert_fuer_zug_id = g.reserviert_fuer_zug_id ∧
        (g'.blockiert_durch_konflikt_ids = g.blockiert_durch_konflikt_ids ∨
          g'.blockiert_durch_konflikt_ids =
            g.blockiert_durch_konflikt_ids.insert qid)) ∨
       (rid = qid ∧ g.belegt_von_zug_id = none ∧
        g.reserviert_fuer_zug_id = none ∧
        g.blockiert_durch_konflikt_ids = [] ∧
        ∃ k t, g.anforderungs_warteschlange = k :: t ∧
          g'.anforderungs_warteschlange = t ∧
          g'.reserviert_fuer_zug_id = some k.zug_id ∧
          g'.blockiert_durch_konflikt_ids = [])) := by
  cases hfq : findFahrstrasse st qid with
  | none =>
    rw [tryGrant_keine_route hfq]
    exact ⟨g, hg, rfl, rfl, rfl, Or.inl ⟨rfl, rfl, Or.inl rfl⟩⟩
  | some fsq =>
    cases hq : fsq.anforderungs_warteschlange with
    | nil =>
      rw [tryGrant_leere_schlange hfq hq]
      exact ⟨g, hg, rfl, rfl, rfl, Or.inl ⟨rfl, rfl, Or.inl rfl⟩⟩
    | cons k t =>
      by_cases hcond : fsq.belegt_von_zug_id = none ∧
          fsq.reserviert_fuer_zug_id = none ∧
          fsq.blockiert_durch_konflikt_ids = []
      · obtain ⟨hb, hr, hbl⟩ := hcond
        rw [tryGrant_gewaehrt hfq hq hb hr hbl]
        have hid : ∀ a : Fahrstrasse,
            ((fun gs => if gs.fahrstrasse_id = qid then
                { gs with reserviert_fuer_zug_id := some k.zug_id,
                          anforderungs_warteschlange := t }
              else if gs.fahrstrasse_id ∈ fsq.konfligierende_fahrstrassen then
                { gs with blockiert_durch_konflikt_ids :=
                    gs.blockiert_durch_konflikt_ids.insert qid }
              else gs) a).fahrstrasse_id = a.fahrstrasse_id := by
          intro a
          dsimp only
          by_cases h1 : a.fahrstrasse_id = qid
          · rw [if_pos h1]
          · rw [if_neg h1]
            by_cases h2 : a.fahrstrasse_id ∈ fsq.konfligierende_fahrstrassen
            · rw [if_pos h2]
            · rw [if_neg h2]
        have hfind := find_nach_map hid hg
        by_cases hgq : g.fahrstrasse_id = qid
        · have hr_eq : rid = qid := by
            have h3 := findFahrstrasse_id hg
            rw [h3] at hgq
            exact hgq
          have hgfsq : fsq = g := by
            rw [hr_eq] at hg
            rw [hg] at hfq
            exact (Option.some.inj hfq).symm
          have hb2 : g.belegt_von_zug_id = none := hgfsq ▸ hb
          have hr2 : g.reserviert_fuer_zug_id = none := hgfsq ▸ hr
          have hbl2 : g.blockiert_durch_konflikt_ids = [] := hgfsq ▸ hbl
          have hq2 : g.anforderungs_warteschlange = k :: t := hgfsq ▸ hq
          rw [if_pos hgq] at hfind
          exact ⟨_, hfind, rfl, rfl, rfl,
            Or.inr ⟨hr_eq, hb2, hr2, hbl2, k, t, hq2, rfl, rfl, hbl2⟩⟩
        · by_cases hmem : g.fahrstrasse_id ∈ fsq.konfligierende_fahrstrassen
          · rw [if_neg hgq, if_pos hmem] at hfind
            exact ⟨_, hfind, rfl, rfl, rfl, Or.inl ⟨rfl, rfl, Or.inr rfl⟩⟩
          · rw [if_neg hgq, if_neg hmem] at hfind
            exact ⟨_, hfind, rfl, rfl, rfl, Or.inl ⟨rfl, rfl, Or.inl rfl⟩⟩
      · rw [tryGrant_nicht_frei hfq hcond]
        exact ⟨g, hg, rfl, rfl, rfl, Or.inl ⟨rfl, rfl, Or.inl rfl⟩⟩

lemma haengeAn_wirkung {s : Stellwerk} (zid rid0 : String) (tick : ℕ)
    {rid : String} {g : Fahrstrasse} (hg : findFahrstrasse s rid = some g) :
    ∃ g', findFahrstrasse (haengeAnforderungAn s zid rid0 tick) rid = some g' ∧
      g'.fahrstrasse_id = g.fahrstrasse_id ∧
      g'.belegt_von_zug_id = g.belegt_von_zug_id ∧
      g'.reserviert_fuer_zug_id = g.reserviert_fuer_zug_id ∧
      g'.blockiert_durch_konflikt_ids = g.blockiert_durch_konflikt_ids ∧
      g'.konfligierende_fahrstrassen = g.konfligierende_fahrstrassen ∧
      (g'.anforderungs_warteschlange = g.anforderungs_warteschlange ∨
        g'.anforderungs_warteschlange =
          g.anforderungs_warteschlange ++ [⟨zid, rid0, tick⟩]) := by
  unfold haengeAnforderungAn
  have hid : ∀ a : Fahrstrasse,
      ((fun gs => if gs.fahrstrasse_id = rid0 then
          ({ gs with anforderungs_warteschlange :=
              gs.anforderungs_warteschlange ++ [⟨zid, rid0, tick⟩] } : Fahrstrasse)
        else gs) a).fahrstrasse_id = a.fahrstrasse_id := by
    intro a
    dsimp only
    by_cases h1 : a.fahrstrasse_id = rid0
    · rw [if_pos h1]
    · rw [if_neg h1]
  have hfind := find_nach_map hid hg
  by_cases h1 : g.fahrstrasse_id = rid0
  · rw [if_pos h1] at hfind
    exact ⟨_, hfind, rfl, rfl, rfl, rfl, rfl, Or.inr rfl⟩
  · rw [if_neg h1] at hfind
    exact ⟨_, hfind, rfl, rfl, rfl, rfl, rfl, Or.inl rfl⟩

lemma confirmOccupancy_ok {s s' : Stellwerk} {rid zid : String} {tick : ℕ}
    (h : confirmOccupancy s rid zid tick = .ok s') :
    ∃ fs, findFahrstrasse s rid = some fs ∧
      fs.reserviert_fuer_zug_id = some zid ∧
      s' = ⟨s.fahrstrassen.map (fun gs =>
        if gs.fahrstrasse_id = rid then
          { gs with belegt_von_zug_id := some zid,
                    reserviert_fuer_zug_id := none }
        else gs)⟩ := by
  unfold confirmOccupancy at h
  cases hf : findFahrstrasse s rid with
  | none =>
    simp only [hf] at h
    exact Except.noConfusion h
  | some fs =>
    simp only [hf] at h
    by_cases hr : fs.reserviert_fuer_zug_id = some zid
    · rw [if_pos hr] at h
      exact ⟨fs, rfl, hr, (Except.ok.inj h).symm⟩
    · rw [if_neg hr] at h
      exact absurd h (by simp)

lemma confirmOccupancy_wirkung {s s' : Stellwerk} {rid0 zid : String} {tick : ℕ}
    (h : confirmOccupancy s rid0 zid tick = .ok s') {rid : String}
    {g : Fahrstrasse} (hg : findFahrstrasse s rid = some g) :
    ∃ g', findFahrstrasse s' rid = some g' ∧
      g'.fahrstrasse_id = g.fahrstrasse_id ∧
      g'.anforderungs_warteschlange = g.anforderungs_warteschlange ∧
      g'.blockiert_durch_konflikt_ids = g.blockiert_durch_konflikt_ids ∧
      g'.konfligierende_fahrstrassen = g.konfligierende_fahrstrassen ∧
      (g' = g ∨ (rid = rid0 ∧ g.reserviert_fuer_zug_id = some zid ∧
        g'.belegt_von_zug_id = some zid ∧
        g'.reserviert_fuer_zug_id = none)) := by
  obtain ⟨fs, hfs, hres, rfl⟩ := confirmOccupancy_ok h
  have hid : ∀ a : Fahrstrasse,
      ((fun gs => if gs.fahrstrasse_id = rid0 then
          ({ gs with belegt_von_zug_id := some zid, reserviert_fuer_zug_id := none } : Fahrstrasse)
        else gs) a).fahrstrasse_id = a.fahrstrasse_id := by
    intro a
    dsimp only
    by_cases h1 : a.fahrstrasse_id = rid0
    · rw [if_pos h1]
    · rw [if_neg h1]
  have hfind := find_nach_map hid hg
  by_cases h1 : g.fahrstrasse_id = rid0
  · rw [if_pos h1] at hfind
    have hr_eq : rid = rid0 := by
      have h3 := findFahrstrasse_id hg
      rw [h3] at h1
      exact h1
    have hgfs : fs = g := by
      rw [hr_eq] at hg
      rw [hg] at hfs
      exact (Option.some.inj hfs).symm
    exact ⟨_, hfind, rfl, rfl, rfl, rfl,
      Or.inr ⟨hr_eq, hgfs ▸ hres, rfl, rfl⟩⟩
  · rw [if_neg h1] at hfind
    exact ⟨_, hfind, rfl, rfl, rfl, rfl, Or.inl rfl⟩

lemma releaseRoute_ok {s s' : Stellwerk} {rid zid : String} {tick : ℕ}
    (h : releaseRoute s rid zid tick = .ok s') :
    ∃ fs, findFahrstrasse s rid = some fs ∧
      fs.belegt_von_zug_id = some zid ∧
      s' = kaskadiereGrants
        (sortiereIds (entblockteRouten s rid fs.konfligierende_fahrstrassen))
        (raeumeFahrstrasse s rid fs.konfligierende_fahrstrassen) := by
  unfold releaseRoute at h
  cases hf : findFahrstrasse s rid with
  | none =>
    simp only [hf] at h
    exact Except.noConfusion h
  | some fs =>
    simp only [hf] at h
    by_cases hb : fs.belegt_von_zug_id = some zid
    · rw [if_pos hb] at h
      exact ⟨fs, rfl, hb, (Except.ok.inj h).symm⟩
    · rw [if_neg hb] at h
      exact absurd h (by simp)

lemma raeume_wirkung {s : Stellwerk} (rid0 : String) (konflikte : List String)
    {rid : String} {g : Fahrstrasse} (hg : findFahrstrasse s rid = some g) :
    ∃ g', findFahrstrasse (raeumeFahrstrasse s rid0 konflikte) rid = some g' ∧
      g'.fahrstrasse_id = g.fahrstrasse_id ∧
      g'.anforderungs_warteschlange = g.anforderungs_warteschlange ∧
      g'.reserviert_fuer_zug_id = g.reserviert_fuer_zug_id ∧
      g'.konfligierende_fahrstrassen = g.konfligierende_fahrstrassen ∧
      ((rid = rid0 ∧ g'.belegt_von_zug_id = none ∧
        g'.blockiert_durch_konflikt_ids = g.blockiert_durch_konflikt_ids) ∨
       (g'.belegt_von_zug_id = g.belegt_von_zug_id ∧
        (g'.blockiert_durch_konflikt_ids = g.blockiert_durch_konflikt_ids ∨
         g'.blockiert_durch_konflikt_ids =
           g.blockiert_durch_konflikt_ids.erase rid0))) := by
  unfold raeumeFahrstrasse
  have hid : ∀ a : Fahrstrasse,
      ((fun gs => if gs.fahrstrasse_id = rid0 then
          ({ gs with belegt_von_zug_id := none } : Fahrstrasse)
        else if gs.fahrstrasse_id ∈ konflikte then
          { gs with blockiert_durch_konflikt_ids :=
              gs.blockiert_durch_konflikt_ids.erase rid0 }
        else gs) a).fahrstrasse_id = a.fahrstrasse_id := by
    intro a
    dsimp only
    by_cases h1 : a.fahrstrasse_id = rid0
    · rw [if_pos h1]
    · rw [if_neg h1]
      by_cases h2 : a.fahrstrasse_id ∈ konflikte
      · rw [if_pos h2]
      · rw [if_neg h2]
  have hfind := find_nach_map hid hg
  by_cases h1 : g.fahrstrasse_id = rid0
  · rw [if_pos h1] at hfind
    have hr_eq : rid = rid0 := by
      have h3 := findFahrstrasse_id hg
      rw [h3] at h1
      exact h1
    exact ⟨_, hfind, rfl, rfl, rfl, rfl, Or.inl ⟨hr_eq, rfl, rfl⟩⟩
  · rw [if_neg h1] at hfind
    by_cases h2 : g.fahrstrasse_id ∈ konflikte
    · rw [if_pos h2] at hfind
      exact ⟨_, hfind, rfl, rfl, rfl, rfl, Or.inr ⟨rfl, Or.inr rfl⟩⟩
    · rw [if_neg h2] at hfind
      exact ⟨_, hfind, rfl, rfl, rfl, rfl, Or.inr ⟨rfl, Or.inl rfl⟩⟩

lemma kaskadiereGrants_wirkung (l : List String) {st : Stellwerk}
    {rid : String} {g : Fahrstrasse} (hg : findFahrstrasse st rid = some g) :
    ∃ g', findFahrstrasse (kaskadiereGrants l st) rid = some g' ∧
      g'.fahrstrasse_id = g.fahrstrasse_id ∧
      g'.belegt_von_zug_id = g.belegt_von_zug_id ∧
      g'.konfligierende_fahrstrassen = g.konfligierende_fahrstrassen ∧
      ((g'.anforderungs_warteschlange = g.anforderungs_warteschlange ∧
        g'.reserviert_fuer_zug_id = g.reserviert_fuer_zug_id) ∨
       (g.reserviert_fuer_zug_id = none ∧ g.belegt_von_zug_id = none ∧
        ∃ k t, g.anforderungs_warteschlange = k :: t ∧
          g'.anforderungs_warteschlange = t ∧
          g'.reserviert_fuer_zug_id = some k.zug_id)) := by
  induction l generalizing st g with
  | nil => exact ⟨g, hg, rfl, rfl, rfl, Or.inl ⟨rfl, rfl⟩⟩
  | cons q l ih =>
    obtain ⟨g1, hg1, hid1, hb1, hk1, hcase1⟩ := tryGrant_wirkung q hg
    obtain ⟨g', hg', hid2, hb2, hk2, hcase2⟩ := ih hg1
    refine ⟨g', hg', hid2.trans hid1, hb2.trans hb1, hk2.trans hk1, ?_⟩
    rcases hcase1 with ⟨hq1, hr1, -⟩ | ⟨-, hbn, hrn, -, k, t, hqkt, hq1, hr1, -⟩
    · rcases hcase2 with ⟨hq2, hr2⟩ | ⟨hrn2, hbn2, k, t, hqkt2, hq2, hr2⟩
      · exact Or.inl ⟨hq2.trans hq1, hr2.trans hr1⟩
      · exact Or.inr ⟨hr1 ▸ hrn2, hb1 ▸ hbn2, k, t, hq1 ▸ hqkt2, hq2, hr2⟩
    · rcases hcase2 with ⟨hq2, hr2⟩ | ⟨hrn2, hbn2, k2, t2, hqkt2, hq2, hr2⟩
      · exact Or.inr ⟨hrn, hbn, k, t, hqkt, hq2.trans hq1, hr2.trans hr1⟩
      · rw [hr1] at hrn2
        exact absurd hrn2 (by simp)

/-!
## Engine toolkit: invariant preservation
-/

lemma ids_nach_map {l : List Fahrstrasse} {f : Fahrstrasse → Fahrstrasse}
    (hf : ∀ a, (f a).fahrstrasse_id = a.fahrstrasse_id) :
    (l.map f).map (·.fahrstrasse_id) = l.map (·.fahrstrasse_id) := by
  induction l with
  | nil => rfl
  | cons a t ih => simp only [List.map_cons, hf a, ih]

lemma forall₂_map_selbst {R : Fahrstrasse → Fahrstrasse → Prop}
    {l : List Fahrstrasse} {f : Fahrstrasse → Fahrstrasse}
    (h : ∀ a ∈ l, R a (f a)) : List.Forall₂ R l (l.map f) := by
  induction l with
  | nil => exact List.Forall₂.nil
  | cons a t ih =>
    exact List.Forall₂.cons (h a (List.mem_cons_self a t))
      (ih (fun b hb => h b (List.mem_cons_of_mem _ hb)))

lemma forall₂_erwirbt_refl (l : List Fahrstrasse) :
    List.Forall₂ erwirbtNurFrei l l := by
  induction l with
  | nil => exact List.Forall₂.nil
  | cons a t ih =>
    refine List.Forall₂.cons ?_ ih
    intro z hz hne
    exact absurd hz (fun h => hne h)

lemma eindeutig_bei_find {s : Stellwerk}
    (hnd : (s.fahrstrassen.map (·.fahrstrasse_id)).Nodup)
    {rid : String} {fs gs : Fahrstrasse}
    (hf : findFahrstrasse s rid = some fs) (hgs : gs ∈ s.fahrstrassen)
    (hid : gs.fahrstrasse_id = rid) : gs = fs := by
  have hfs := findFahrstrasse_mem hf
  have hfid := findFahrstrasse_id hf
  exact List.inj_on_of_nodup_map hnd hgs hfs (by rw [hid, hfid])

lemma halter_kongruenz {a b : Fahrstrasse}
    (h1 : b.belegt_von_zug_id = a.belegt_von_zug_id)
    (h2 : b.reserviert_fuer_zug_id = a.reserviert_fuer_zug_id) :
    halter b = halter a := by
  unfold halter
  rw [h1, h2]

lemma erwirbt_bei_gleichem_halter {a b : Fahrstrasse}
    (h : halter b = halter a) : erwirbtNurFrei a b := by
  intro z hz hne
  rw [h] at hz
  exact absurd hz hne

lemma halter_belegt {a : Fahrstrasse} {z : String}
    (h : a.belegt_von_zug_id = some z) : halter a = some z := by
  unfold halter
  rw [h]

lemma halter_frei {a : Fahrstrasse} (h : a.belegt_von_zug_id = none) :
    halter a = a.reserviert_fuer_zug_id := by
  unfold halter
  rw [h]

lemma gut_nodup_nach_map {l : List Fahrstrasse} {f : Fahrstrasse → Fahrstrasse}
    (hf : ∀ a, (f a).fahrstrasse_id = a.fahrstrasse_id)
    (h : (l.map (·.fahrstrasse_id)).Nodup) :
    ((Stellwerk.mk (l.map f)).fahrstrassen.map (·.fahrstrasse_id)).Nodup := by
  show ((l.map f).map (·.fahrstrasse_id)).Nodup
  rw [ids_nach_map hf]
  exact h

lemma haengeAn_gut {s : Stellwerk} (zid rid : String) (tick : ℕ)
    (h : GuterZustand s) :
    GuterZustand (haengeAnforderungAn s zid rid tick) ∧
    List.Forall₂ erwirbtNurFrei s.fahrstrassen
      (haengeAnforderungAn s zid rid tick).fahrstrassen := by
  have hid : ∀ a : Fahrstrasse,
      ((fun gs => if gs.fahrstrasse_id = rid then
          ({ gs with anforderungs_warteschlange :=
              gs.anforderungs_warteschlange ++ [⟨zid, rid, tick⟩] } : Fahrstrasse)
        else gs) a).fahrstrasse_id = a.fahrstrasse_id := by
    intro a
    dsimp only
    by_cases h1 : a.fahrstrasse_id = rid
    · rw [if_pos h1]
    · rw [if_neg h1]
  constructor
  · constructor
    · exact gut_nodup_nach_map hid h.1
    · intro fs' hfs'
      obtain ⟨a, ha, rfl⟩ := List.mem_map.mp hfs'
      by_cases h1 : a.fahrstrasse_id = rid
      · simp only [if_pos h1]
        exact h.2 a ha
      · simp only [if_neg h1]
        exact h.2 a ha
  · apply forall₂_map_selbst
    intro a ha
    apply erwirbt_bei_gleichem_halter
    by_cases h1 : a.fahrstrasse_id = rid
    · exact halter_kongruenz (by simp only [if_pos h1]) (by simp only [if_pos h1])
    · exact halter_kongruenz (by simp only [if_neg h1]) (by simp only [if_neg h1])

lemma tryGrant_gut {s : Stellwerk} (rid : String) (h : GuterZustand s) :
    GuterZustand (tryGrant s rid).1 ∧
    List.Forall₂ erwirbtNurFrei s.fahrstrassen
      (tryGrant s rid).1.fahrstrassen := by
  cases hfq : findFahrstrasse s rid with
  | none =>
    rw [tryGrant_keine_route hfq]
    exact ⟨h, forall₂_erwirbt_refl _⟩
  | some fs =>
    cases hq : fs.anforderungs_warteschlange with
    | nil =>
      rw [tryGrant_leere_schlange hfq hq]
      exact ⟨h, forall₂_erwirbt_refl _⟩
    | cons k t =>
      by_cases hcond : fs.belegt_von_zug_id = none ∧
          fs.reserviert_fuer_zug_id = none ∧
          fs.blockiert_durch_konflikt_ids = []
      · obtain ⟨hb, hr, hbl⟩ := hcond
        rw [tryGrant_gewaehrt hfq hq hb hr hbl]
        have hid : ∀ a : Fahrstrasse,
            ((fun gs => if gs.fahrstrasse_id = rid then
                ({ gs with reserviert_fuer_zug_id := some k.zug_id, anforderungs_warteschlange := t } : Fahrstrasse)
              else if gs.fahrstrasse_id ∈ fs.konfligierende_fahrstrassen then
                { gs with blockiert_durch_konflikt_ids :=
                    gs.blockiert_durch_konflikt_ids.insert rid }
              else gs) a).fahrstrasse_id = a.fahrstrasse_id := by
          intro a
          dsimp only
          by_cases h1 : a.fahrstrasse_id = rid
          · rw [if_pos h1]
          · rw [if_neg h1]
            by_cases h2 : a.fahrstrasse_id ∈ fs.konfligierende_fahrstrassen
            · rw [if_pos h2]
            · rw [if_neg h2]
        constructor
        · constructor
          · exact gut_nodup_nach_map hid h.1
          · intro fs' hfs'
            obtain ⟨a, ha, rfl⟩ := List.mem_map.mp hfs'
            by_cases h1 : a.fahrstrasse_id = rid
            · have haf : a = fs := eindeutig_bei_find h.1 hfq ha h1
              subst haf
              simp only [if_pos h1]
              intro hbel
              exact absurd hb hbel
            · simp only [if_neg h1]
              by_cases h2 : a.fahrstrasse_id ∈ fs.konfligierende_fahrstrassen
              · simp only [if_pos h2]
                exact h.2 a ha
              · simp only [if_neg h2]
                exact h.2 a ha
        · apply forall₂_map_selbst
          intro a ha
          by_cases h1 : a.fahrstrasse_id = rid
          · have haf : a = fs := eindeutig_bei_find h.1 hfq ha h1
            subst haf
            intro z hz hne
            exact ⟨hb, hr, hbl⟩
          · apply erwirbt_bei_gleichem_halter
            by_cases h2 : a.fahrstrasse_id ∈ fs.konfligierende_fahrstrassen
            · exact halter_kongruenz (by simp only [if_neg h1, if_pos h2])
                (by simp only [if_neg h1, if_pos h2])
            · exact halter_kongruenz (by simp only [if_neg h1, if_neg h2])
                (by simp only [if_neg h1, if_neg h2])
      · rw [tryGrant_nicht_frei hfq hcond]
        exact ⟨h, forall₂_erwirbt_refl _⟩

lemma confirm_gut {s s' : Stellwerk} {rid zid : String} {tick : ℕ}
    (h : GuterZustand s) (hok : confirmOccupancy s rid zid tick = .ok s') :
    GuterZustand s' ∧
    List.Forall₂ erwirbtNurFrei s.fahrstrassen s'.fahrstrassen := by
  obtain ⟨fs, hfs, hres, rfl⟩ := confirmOccupancy_ok hok
  have hfb : fs.belegt_von_zug_id = none := by
    by_contra hb
    have h2 := h.2 fs (findFahrstrasse_mem hfs) hb
    rw [h2] at hres
    exact Option.noConfusion hres
  have hid : ∀ a : Fahrstrasse,
      ((fun gs => if gs.fahrstrasse_id = rid then
          ({ gs with belegt_von_zug_id := some zid, reserviert_fuer_zug_id := none } : Fahrstrasse)
        else gs) a).fahrstrasse_id = a.fahrstrasse_id := by
    intro a
    dsimp only
    by_cases h1 : a.fahrstrasse_id = rid
    · rw [if_pos h1]
    · rw [if_neg h1]
  constructor
  · constructor
    · exact gut_nodup_nach_map hid h.1
    · intro fs' hfs'
      obtain ⟨a, ha, rfl⟩ := List.mem_map.mp hfs'
      by_cases h1 : a.fahrstrasse_id = rid
      · simp only [if_pos h1]
        intro _
        trivial
      · simp only [if_neg h1]
        exact h.2 a ha
  · apply forall₂_map_selbst
    intro a ha
    by_cases h1 : a.fahrstrasse_id = rid
    · have haf : a = fs := eindeutig_bei_find h.1 hfs ha h1
      subst haf
      apply erwirbt_bei_gleichem_halter
      simp only [if_pos h1]
      rw [halter_belegt (show ({ a with belegt_von_zug_id := some zid, reserviert_fuer_zug_id := none } : Fahrstrasse).belegt_von_zug_id = some zid from rfl)]
      rw [halter_frei hfb, hres]
    · apply erwirbt_bei_gleichem_halter
      exact halter_kongruenz (by simp only [if_neg h1]) (by simp only [if_neg h1])

lemma raeume_gut {s : Stellwerk} (rid : String) (konflikte : List String)
    (h : GuterZustand s) :
    GuterZustand (raeumeFahrstrasse s rid konflikte) ∧
    List.Forall₂ erwirbtNurFrei s.fahrstrassen
      (raeumeFahrstrasse s rid konflikte).fahrstrassen := by
  have hid : ∀ a : Fahrstrasse,
      ((fun gs => if gs.fahrstrasse_id = rid then
          ({ gs with belegt_von_zug_id := none } : Fahrstrasse)
        else if gs.fahrstrasse_id ∈ konflikte then
          { gs with blockiert_durch_konflikt_ids :=
              gs.blockiert_durch_konflikt_ids.erase rid }
        else gs) a).fahrstrasse_id = a.fahrstrasse_id := by
    intro a
    dsimp only
    by_cases h1 : a.fahrstrasse_id = rid
    · rw [if_pos h1]
    · rw [if_neg h1]
      by_cases h2 : a.fahrstrasse_id ∈ konflikte
      · rw [if_pos h2]
      · rw [if_neg h2]
  constructor
  · constructor
    · exact gut_nodup_nach_map hid h.1
    · intro fs' hfs'
      obtain ⟨a, ha, rfl⟩ := List.mem_map.mp hfs'
      by_cases h1 : a.fahrstrasse_id = rid
      · simp only [if_pos h1]
        intro hbel
        exact absurd rfl hbel
      · simp only [if_neg h1]
        by_cases h2 : a.fahrstrasse_id ∈ konflikte
        · simp only [if_pos h2]
          exact h.2 a ha
        · simp only [if_neg h2]
          exact h.2 a ha
  · apply forall₂_map_selbst
    intro a ha
    by_cases h1 : a.fahrstrasse_id = rid
    · intro z hz hne
      simp only [if_pos h1] at hz
      rw [halter_frei (show ({ a with belegt_von_zug_id := none } : Fahrstrasse).belegt_von_zug_id = none from rfl)] at hz
      cases hb : a.belegt_von_zug_id with
      | none =>
        have hza : halter a = some z := by
          rw [halter_frei hb]
          exact hz
        exact absurd hza hne
      | some T =>
        have h2 := h.2 a ha (by rw [hb]; exact Option.noConfusion)
        rw [h2] at hz
        exact Option.noConfusion hz
    · apply erwirbt_bei_gleichem_halter
      by_cases h2 : a.fahrstrasse_id ∈ konflikte
      · exact halter_kongruenz (by simp only [if_neg h1, if_pos h2])
          (by simp only [if_neg h1, if_pos h2])
      · exact halter_kongruenz (by simp only [if_neg h1, if_neg h2])
          (by simp only [if_neg h1, if_neg h2])

lemma mikro_gut {s s' : Stellwerk} (h : GuterZustand s) (hst : MicroStep s s') :
    GuterZustand s' ∧
    List.Forall₂ erwirbtNurFrei s.fahrstrassen s'.fahrstrassen := by
  cases hst with
  | anhaengen zid rid tick => exact haengeAn_gut zid rid tick h
  | gewaehren rid => exact tryGrant_gut rid h
  | bestaetigen rid zid tick s2 hok => exact confirm_gut h hok
  | raeumen rid konflikte => exact raeume_gut rid konflikte h

lemma kaskade_mikro (l : List String) (st : Stellwerk) :
    Relation.ReflTransGen MicroStep st (kaskadiereGrants l st) := by
  induction l generalizing st with
  | nil => exact Relation.ReflTransGen.refl
  | cons q l ih =>
    exact Relation.ReflTransGen.head (MicroStep.gewaehren st q)
      (ih (tryGrant st q).1)

lemma engine_zu_mikro {s s' : Stellwerk} (h : EngineStep s s') :
    Relation.ReflTransGen MicroStep s s' := by
  cases h with
  | submit zid rid tick =>
    exact Relation.ReflTransGen.tail
      (Relation.ReflTransGen.single (MicroStep.anhaengen s zid rid tick))
      (MicroStep.gewaehren (haengeAnforderungAn s zid rid tick) rid)
  | grant rid =>
    exact Relation.ReflTransGen.single (MicroStep.gewaehren s rid)
  | confirm rid zid tick =>
    rename_i hok
    exact Relation.ReflTransGen.single (MicroStep.bestaetigen s rid zid tick s' hok)
  | release rid zid tick =>
    rename_i hok
    obtain ⟨fs, hfs, hb, rfl⟩ := releaseRoute_ok hok
    exact Relation.ReflTransGen.head
      (MicroStep.raeumen s rid fs.konfligierende_fahrstrassen)
      (kaskade_mikro _ _)

lemma rtg_gut {s s' : Stellwerk} (h : GuterZustand s)
    (hst : Relation.ReflTransGen MicroStep s s') : GuterZustand s' := by
  induction hst with
  | refl => exact h
  | tail _ hstep ih => exact (mikro_gut ih hstep).1

/-!
## Claim C1: mutual exclusion and grant only from the all-empty state
-/

/-- C1: with unique route ids, the per-route mutual-exclusion invariant (if
`occupiedBy` is set then `reservedFor` is empty; a single `Option` holder,
so at most one train holds the route) is preserved by every Interlocking
Engine operation; moreover every engine operation decomposes into
elementary transitions, and at each elementary transition a route acquires
a new holding train only from a state with `occupiedBy`, `reservedFor` and
`blockedByConflicts` all empty. -/
theorem engine_erhaelt_gegenseitigen_ausschluss :
    (∀ s s' : Stellwerk, EngineStep s s' →
      Relation.ReflTransGen MicroStep s s') ∧
    (∀ s s' : Stellwerk, GuterZustand s → MicroStep s s' →
      GuterZustand s' ∧
      List.Forall₂ erwirbtNurFrei s.fahrstrassen s'.fahrstrassen) ∧
    (∀ s s' : Stellwerk, GuterZustand s → EngineStep s s' →
      GuterZustand s') :=
  ⟨fun _ _ h => engine_zu_mikro h,
   fun _ _ hg h => mikro_gut hg h,
   fun _ _ hg h => rtg_gut hg (engine_zu_mikro h)⟩

/-- Witness for C1: the invariant holds on the example state and is
preserved by a concrete grant step. -/
theorem engine_erhaelt_gegenseitigen_ausschluss_zeuge :
    GuterZustand beispielStellwerk ∧
    GuterZustand (tryGrant beispielStellwerk "A").1 :=
  ⟨by decide,
    engine_erhaelt_gegenseitigen_ausschluss.2.2 beispielStellwerk
      (tryGrant beispielStellwerk "A").1 (by decide)
      (EngineStep.grant beispielStellwerk "A")⟩

/-!
## Claim C2: exact characterisation of `tryGrant`
-/

/-- C2: `tryGrant` grants exactly when the queue is non-empty and
`occupiedBy`, `reservedFor` and `blockedByConflicts` are all empty; in that
case it reserves the route for the head request's train, removes the head
from the queue and adds this route's id to the blocked set of every
conflicting route, leaving all other routes unchanged; in every other case
(in particular whenever `blockedByConflicts` is non-empty) it returns the
state unchanged with result `false`. -/
theorem tryGrant_genau_dann (s : Stellwerk) (rid : String) (fs : Fahrstrasse)
    (hf : findFahrstrasse s rid = some fs) :
    ((tryGrant s rid).2 = true ↔
      fs.anforderungs_warteschlange ≠ [] ∧ fs.belegt_von_zug_id = none ∧
      fs.reserviert_fuer_zug_id = none ∧
      fs.blockiert_durch_konflikt_ids = []) ∧
    ((tryGrant s rid).2 = false → (tryGrant s rid).1 = s) ∧
    (fs.blockiert_durch_konflikt_ids ≠ [] → tryGrant s rid = (s, false)) ∧
    (∀ anf rest, fs.anforderungs_warteschlange = anf :: rest →
      fs.belegt_von_zug_id = none → fs.reserviert_fuer_zug_id = none →
      fs.blockiert_durch_konflikt_ids = [] →
      (tryGrant s rid).2 = true ∧
      List.Forall₂ (fun gs gs' =>
        (gs.fahrstrasse_id = rid →
          gs' = { gs with reserviert_fuer_zug_id := some anf.zug_id, anforderungs_warteschlange := rest }) ∧
        (gs.fahrstrasse_id ≠ rid →
          gs.fahrstrasse_id ∈ fs.konfligierende_fahrstrassen →
          gs' = { gs with blockiert_durch_konflikt_ids := gs.blockiert_durch_konflikt_ids.insert rid }) ∧
        (gs.fahrstrasse_id ≠ rid →
          gs.fahrstrasse_id ∉ fs.konfligierende_fahrstrassen → gs' = gs))
        s.fahrstrassen (tryGrant s rid).1.fahrstrassen) := by
  refine ⟨⟨?_, ?_⟩, ?_, ?_, ?_⟩
  · intro ht
    cases hq : fs.anforderungs_warteschlange with
    | nil =>
      rw [tryGrant_leere_schlange hf hq] at ht
      exact absurd ht (by simp)
    | cons anf rest =>
      by_cases hcond : fs.belegt_von_zug_id = none ∧
          fs.reserviert_fuer_zug_id = none ∧
          fs.blockiert_durch_konflikt_ids = []
      · exact ⟨by simp [hq], hcond.1, hcond.2.1, hcond.2.2⟩
      · rw [tryGrant_nicht_frei hf hcond] at ht
        exact absurd ht (by simp)
  · rintro ⟨hqne, hb, hr, hbl⟩
    cases hq : fs.anforderungs_warteschlange with
    | nil => exact absurd hq hqne
    | cons anf rest => rw [tryGrant_gewaehrt hf hq hb hr hbl]
  · intro hfalse
    cases hq : fs.anforderungs_warteschlange with
    | nil => rw [tryGrant_leere_schlange hf hq]
    | cons anf rest =>
      by_cases hcond : fs.belegt_von_zug_id = none ∧
          fs.reserviert_fuer_zug_id = none ∧
          fs.blockiert_durch_konflikt_ids = []
      · rw [tryGrant_gewaehrt hf hq hcond.1 hcond.2.1 hcond.2.2] at hfalse
        simp at hfalse
      · rw [tryGrant_nicht_frei hf hcond]
  · intro hbl
    cases hq : fs.anforderungs_warteschlange with
    | nil => exact tryGrant_leere_schlange hf hq
    | cons anf rest => exact tryGrant_nicht_frei hf (fun hc => hbl hc.2.2)
  · intro anf rest hq hb hr hbl
    rw [tryGrant_gewaehrt hf hq hb hr hbl]
    refine ⟨rfl, ?_⟩
    apply forall₂_map_selbst
    intro a ha
    refine ⟨?_, ?_, ?_⟩
    · intro h1
      simp only [if_pos h1]
    · intro h1 h2
      simp only [if_neg h1, if_pos h2]
    · intro h1 h2
      simp only [if_neg h1, if_neg h2]

/-- Witness for C2: on the example state, route `A` has a non-empty queue
and is free, so `tryGrant` reports a grant. -/
theorem tryGrant_genau_dann_zeuge :
    findFahrstrasse beispielStellwerk "A" = some
      { fahrstrasse_id := "A", gleisabschnitte := ["g1"],
        von_knoten_id := "s1", bis_knoten_id := "s2", laenge := 100,
        konfligierende_fahrstrassen := [],
        anforderungs_warteschlange := [⟨"T1", "A", 0⟩, ⟨"T2", "A", 3⟩] } ∧
    (tryGrant beispielStellwerk "A").2 = true :=
  ⟨rfl,
    ((tryGrant_genau_dann beispielStellwerk "A" _ rfl).2.2.2
      ⟨"T1", "A", 0⟩ [⟨"T2", "A", 3⟩] rfl rfl rfl rfl).1⟩

/-!
## Claim C3: exact characterisation of `confirmOccupancy`
-/

/-- C3: `confirmOccupancy(routeId, T, tick)` succeeds exactly when the
route is reserved for `T`: then it sets `occupiedBy := T` and clears the
reservation, leaving every other route unchanged; otherwise it fails with
`StateError` and returns no new state. -/
theorem confirmOccupancy_genau_dann (s : Stellwerk) (rid zid : String)
    (tick : ℕ) (fs : Fahrstrasse) (hf : findFahrstrasse s rid = some fs) :
    (fs.reserviert_fuer_zug_id = some zid →
      ∃ s', confirmOccupancy s rid zid tick = .ok s' ∧
        List.Forall₂ (fun gs gs' =>
          (gs.fahrstrasse_id = rid →
            gs' = { gs with belegt_von_zug_id := some zid, reserviert_fuer_zug_id := none }) ∧
          (gs.fahrstrasse_id ≠ rid → gs' = gs))
          s.fahrstrassen s'.fahrstrassen) ∧
    (fs.reserviert_fuer_zug_id ≠ some zid →
      confirmOccupancy s rid zid tick = .error (.desync rid)) := by
  constructor
  · intro hres
    refine ⟨⟨s.fahrstrassen.map (fun gs =>
      if gs.fahrstrasse_id = rid then
        { gs with belegt_von_zug_id := some zid, reserviert_fuer_zug_id := none }
      else gs)⟩, ?_, ?_⟩
    · unfold confirmOccupancy
      simp only [hf]
      rw [if_pos hres]
    · apply forall₂_map_selbst
      intro a ha
      constructor
      · intro h1
        simp only [if_pos h1]
      · intro h1
        simp only [if_neg h1]
  · intro hne
    unfold confirmOccupancy
    simp only [hf]
    rw [if_neg hne]

/-- Witness for C3: on the example state, route `B` is reserved for `T7`,
so confirming occupancy for the wrong train `T9` fails with a
`StateError`. -/
theorem confirmOccupancy_genau_dann_zeuge :
    findFahrstrasse beispielStellwerk "B" = some
      { fahrstrasse_id := "B", gleisabschnitte := ["g2"],
        von_knoten_id := "s2", bis_knoten_id := "s3", laenge := 50,
        konfligierende_fahrstrassen := [],
        reserviert_fuer_zug_id := some "T7" } ∧
    confirmOccupancy beispielStellwerk "B" "T9" 1 =
      .error (.desync "B") :=
  ⟨rfl,
    (confirmOccupancy_genau_dann beispielStellwerk "B" "T9" 1 _ rfl).2
      (by decide)⟩

/-!
## Claim C5: strict per-route FIFO
-/

lemma engine_schritt_warteschlange {s s' : Stellwerk} (h : EngineStep s s')
    {rid : String} {fs : Fahrstrasse}
    (hf : findFahrstrasse s rid = some fs) :
    ∃ fs', findFahrstrasse s' rid = some fs' ∧
      WarteschlangenSchritt fs fs' := by
  cases h with
  | submit zid rid0 tick =>
    obtain ⟨g1, hg1, -, -, -, -, -, hqcase⟩ := haengeAn_wirkung zid rid0 tick hf
    obtain ⟨g2, hg2, -, -, -, hcase2⟩ := tryGrant_wirkung rid0 hg1
    refine ⟨g2, hg2, ?_⟩
    rcases hqcase with hq1 | hq1
    · rcases hcase2 with ⟨hq2, hr2⟩ | ⟨-, -, -, -, k, t, hkt, hq2, hr2, -⟩
      · exact Or.inl (hq2.trans hq1)
      · refine Or.inr (Or.inr (Or.inl ⟨k, t, ?_, hr2, Or.inl hq2⟩))
        rw [← hq1]
        exact hkt
    · rcases hcase2 with ⟨hq2, hr2⟩ | ⟨-, -, -, -, k, t, hkt, hq2, hr2, -⟩
      · exact Or.inr (Or.inl ⟨_, hq2.trans hq1⟩)
      · rw [hq1] at hkt
        cases hfsq : fs.anforderungs_warteschlange with
        | nil => exact Or.inr (Or.inr (Or.inr hfsq))
        | cons a q =>
          rw [hfsq] at hkt
          simp only [List.cons_append] at hkt
          have h1 : a = k := (List.cons.inj hkt).1
          have h2 : q ++ [⟨zid, rid0, tick⟩] = t := (List.cons.inj hkt).2
          refine Or.inr (Or.inr (Or.inl ⟨a, q, hfsq, ?_, Or.inr ⟨⟨zid, rid0, tick⟩, ?_⟩⟩))
          · rw [hr2, h1]
          · rw [hq2, ← h2]
  | grant rid0 =>
    obtain ⟨g2, hg2, -, -, -, hcase⟩ := tryGrant_wirkung rid0 hf
    refine ⟨g2, hg2, ?_⟩
    rcases hcase with ⟨hq, hr⟩ | ⟨-, -, -, -, k, t, hkt, hq, hr, -⟩
    · exact Or.inl hq
    · exact Or.inr (Or.inr (Or.inl ⟨k, t, hkt, hr, Or.inl hq⟩))
  | confirm rid0 zid tick =>
    rename_i hok
    obtain ⟨g2, hg2, -, hq, -, -, -⟩ := confirmOccupancy_wirkung hok hf
    exact ⟨g2, hg2, Or.inl hq⟩
  | release rid0 zid tick =>
    rename_i hok
    obtain ⟨fs0, hfs0, hb0, rfl⟩ := releaseRoute_ok hok
    obtain ⟨g1, hg1, -, hq1, hr1, -, -⟩ :=
      raeume_wirkung rid0 fs0.konfligierende_fahrstrassen hf
    obtain ⟨g2, hg2, -, -, -, hcase⟩ := kaskadiereGrants_wirkung _ hg1
    refine ⟨g2, hg2, ?_⟩
    rcases hcase with ⟨hq2, hr2⟩ | ⟨-, -, k, t, hkt, hq2, hr2⟩
    · exact Or.inl (hq2.trans hq1)
    · refine Or.inr (Or.inr (Or.inl ⟨k, t, ?_, hr2, Or.inl hq2⟩))
      rw [← hq1]
      exact hkt

/-- C5: the per-route queue is strictly FIFO.  First, under a monotone
clock (every queued timestamp at most the current tick), `submitRequest`
keeps every queue ordered by timestamp with ties resolved by insertion
order.  Second, across any single engine operation, a request `r1` queued
ahead of `r2` either stays ahead of `r2`, or — only when `r1` is at the
head — is the one granted the reservation: `r2` is never granted while
`r1` still waits. -/
theorem warteschlange_fifo :
    (∀ (s : Stellwerk) (zid rid : String) (tick : ℕ),
      (∀ fs ∈ s.fahrstrassen,
        zeitlichSortiert fs.anforderungs_warteschlange ∧
        ∀ r ∈ fs.anforderungs_warteschlange, r.zeitstempel ≤ tick) →
      ∀ fs' ∈ (submitRequest s zid rid tick).fahrstrassen,
        zeitlichSortiert fs'.anforderungs_warteschlange) ∧
    (∀ (s s' : Stellwerk) (rid : String) (fs : Fahrstrasse)
        (l1 : List RoutenAnforderung) (r1 : RoutenAnforderung)
        (l2 : List RoutenAnforderung) (r2 : RoutenAnforderung)
        (l3 : List RoutenAnforderung),
      EngineStep s s' → findFahrstrasse s rid = some fs →
      fs.anforderungs_warteschlange = l1 ++ r1 :: l2 ++ r2 :: l3 →
      ∃ fs', findFahrstrasse s' rid = some fs' ∧
        (liegtVor r1 r2 fs'.anforderungs_warteschlange ∨
          (l1 = [] ∧ fs'.reserviert_fuer_zug_id = some r1.zug_id))) := by
  constructor
  · intro s zid rid tick hsort fs' hfs'
    have hs1 : ∀ a' ∈ (haengeAnforderungAn s zid rid tick).fahrstrassen,
        zeitlichSortiert a'.anforderungs_warteschlange := by
      intro a' ha'
      obtain ⟨a, ha, rfl⟩ := List.mem_map.mp ha'
      by_cases h1 : a.fahrstrasse_id = rid
      · simp only [if_pos h1]
        show zeitlichSortiert (a.anforderungs_warteschlange ++
          [(⟨zid, rid, tick⟩ : RoutenAnforderung)])
        unfold zeitlichSortiert
        rw [List.pairwise_append]
        refine ⟨(hsort a ha).1, List.pairwise_singleton _ _, ?_⟩
        intro x hx y hy
        simp only [List.mem_singleton] at hy
        subst hy
        exact (hsort a ha).2 x hx
      · simp only [if_neg h1]
        exact (hsort a ha).1
    unfold submitRequest at hfs'
    cases hfq : findFahrstrasse (haengeAnforderungAn s zid rid tick) rid with
    | none =>
      rw [tryGrant_keine_route hfq] at hfs'
      exact hs1 fs' hfs'
    | some g =>
      cases hq : g.anforderungs_warteschlange with
      | nil =>
        rw [tryGrant_leere_schlange hfq hq] at hfs'
        exact hs1 fs' hfs'
      | cons anf rest =>
        by_cases hcond : g.belegt_von_zug_id = none ∧
            g.reserviert_fuer_zug_id = none ∧
            g.blockiert_durch_konflikt_ids = []
        · obtain ⟨hb, hr, hbl⟩ := hcond
          rw [tryGrant_gewaehrt hfq hq hb hr hbl] at hfs'
          obtain ⟨a, ha, rfl⟩ := List.mem_map.mp hfs'
          by_cases h1 : a.fahrstrasse_id = rid
          · simp only [if_pos h1]
            have hgs := hs1 g (findFahrstrasse_mem hfq)
            rw [hq] at hgs
            exact (List.pairwise_cons.mp hgs).2
          · simp only [if_neg h1]
            by_cases h2 : a.fahrstrasse_id ∈ g.konfligierende_fahrstrassen
            · simp only [if_pos h2]
              exact hs1 a ha
            · simp only [if_neg h2]
              exact hs1 a ha
        · rw [tryGrant_nicht_frei hfq hcond] at hfs'
          exact hs1 fs' hfs'
  · intro s s' rid fs l1 r1 l2 r2 l3 hstep hf hq
    obtain ⟨fs', hfs', hws⟩ := engine_schritt_warteschlange hstep hf
    refine ⟨fs', hfs', ?_⟩
    rcases hws with hq' | ⟨r, hq'⟩ | ⟨k, t, hkt, hres, hq'⟩ | hnil
    · exact Or.inl ⟨l1, l2, l3, by rw [hq', hq]⟩
    · refine Or.inl ⟨l1, l2, l3 ++ [r], ?_⟩
      rw [hq', hq]
      simp [List.append_assoc]
    · cases l1 with
      | nil =>
        rw [hq] at hkt
        simp only [List.nil_append] at hkt
        have h1 : r1 = k := (List.cons.inj hkt).1
        refine Or.inr ⟨rfl, ?_⟩
        rw [hres, ← h1]
      | cons a l1t =>
        rw [hq] at hkt
        simp only [List.cons_append] at hkt
        have h2 : l1t ++ r1 :: l2 ++ r2 :: l3 = t := (List.cons.inj hkt).2
        rcases hq' with hq' | ⟨r, hq'⟩
        · exact Or.inl ⟨l1t, l2, l3, by rw [hq', ← h2]⟩
        · refine Or.inl ⟨l1t, l2, l3 ++ [r], ?_⟩
          rw [hq', ← h2]
          simp [List.append_assoc]
    · rw [hq] at hnil
      exact absurd hnil (by simp)

/-- Witness for C5: on the example state, `T1` requested route `A` before
`T2`; a grant step reserves the route for `T1`, not `T2`. -/
theorem warteschlange_fifo_zeuge :
    findFahrstrasse beispielStellwerk "A" = some
      { fahrstrasse_id := "A", gleisabschnitte := ["g1"],
        von_knoten_id := "s1", bis_knoten_id := "s2", laenge := 100,
        konfligierende_fahrstrassen := [],
        anforderungs_warteschlange := [⟨"T1", "A", 0⟩, ⟨"T2", "A", 3⟩] } ∧
    ∃ fs', findFahrstrasse (tryGrant beispielStellwerk "A").1 "A" = some fs' ∧
      (liegtVor ⟨"T1", "A", 0⟩ ⟨"T2", "A", 3⟩ fs'.anforderungs_warteschlange ∨
        (([] : List RoutenAnforderung) = [] ∧
          fs'.reserviert_fuer_zug_id = some "T1")) :=
  ⟨rfl,
    warteschlange_fifo.2 beispielStellwerk (tryGrant beispielStellwerk "A").1
      "A" _ [] ⟨"T1", "A", 0⟩ [] ⟨"T2", "A", 3⟩ []
      (EngineStep.grant beispielStellwerk "A") rfl rfl⟩

/-!
## Claim C4: release effects and propagation
-/

lemma fuegeSortiertEin_perm (a : String) (l : List String) :
    (fuegeSortiertEin a l).Perm (a :: l) := by
  induction l with
  | nil => exact List.Perm.refl _
  | cons b r ih =>
    unfold fuegeSortiertEin
    by_cases h : compare a b = Ordering.gt
    · rw [if_pos h]
      exact (List.Perm.cons b ih).trans (List.Perm.swap a b r)
    · rw [if_neg h]

lemma sortiereIds_perm (l : List String) : (sortiereIds l).Perm l := by
  induction l with
  | nil => exact List.Perm.refl _
  | cons a r ih =>
    exact (fuegeSortiertEin_perm a (sortiereIds r)).trans (List.Perm.cons a ih)

lemma fuegeSortiertEin_sortiert (a : String) (l : List String)
    (h : l.Pairwise (· ≤ ·)) : (fuegeSortiertEin a l).Pairwise (· ≤ ·) := by
  induction l with
  | nil => simp [fuegeSortiertEin]
  | cons b r ih =>
    unfold fuegeSortiertEin
    rw [List.pairwise_cons] at h
    by_cases hc : compare a b = Ordering.gt
    · rw [if_pos hc]
      rw [List.pairwise_cons]
      refine ⟨?_, ih h.2⟩
      intro x hx
      have hx' : x ∈ a :: r := (fuegeSortiertEin_perm a r).mem_iff.mp hx
      rcases List.mem_cons.mp hx' with rfl | hxr
      · exact le_of_lt (compare_gt_iff_gt.mp hc)
      · exact h.1 x hxr
    · rw [if_neg hc]
      rw [List.pairwise_cons]
      constructor
      · intro x hx
        rcases List.mem_cons.mp hx with rfl | hxr
        · exact compare_le_iff_le.mp hc
        · exact le_trans (compare_le_iff_le.mp hc) (h.1 x hxr)
      · exact List.pairwise_cons.mpr h

lemma sortiereIds_sortiert (l : List String) :
    (sortiereIds l).Pairwise (· ≤ ·) := by
  induction l with
  | nil => exact List.Pairwise.nil
  | cons a r ih => exact fuegeSortiertEin_sortiert a (sortiereIds r) ih

lemma kaskade_unbeteiligt (l : List String) (st : Stellwerk) {sid : String}
    {g : Fahrstrasse} (hg : findFahrstrasse st sid = some g)
    (hsid : sid ∉ l)
    (hkon : ∀ qid ∈ l, ∀ fsQ, findFahrstrasse st qid = some fsQ →
      sid ∉ fsQ.konfligierende_fahrstrassen) :
    findFahrstrasse (kaskadiereGrants l st) sid = some g := by
  induction l generalizing st with
  | nil => exact hg
  | cons q r ih =>
    have hq_ne : sid ≠ q := fun h => hsid (h ▸ List.mem_cons_self q r)
    have hsid_r : sid ∉ r := fun h => hsid (List.mem_cons_of_mem _ h)
    show findFahrstrasse (kaskadiereGrants r (tryGrant st q).1) sid = some g
    cases hfq : findFahrstrasse st q with
    | none =>
      rw [tryGrant_keine_route hfq]
      exact ih st hg hsid_r
        (fun qid hq fsq hf => hkon qid (List.mem_cons_of_mem _ hq) fsq hf)
    | some fsQ =>
      cases hq2 : fsQ.anforderungs_warteschlange with
      | nil =>
        rw [tryGrant_leere_schlange hfq hq2]
        exact ih st hg hsid_r
          (fun qid hq fsq hf => hkon qid (List.mem_cons_of_mem _ hq) fsq hf)
      | cons k t =>
        by_cases hcond : fsQ.belegt_von_zug_id = none ∧
            fsQ.reserviert_fuer_zug_id = none ∧
            fsQ.blockiert_durch_konflikt_ids = []
        · obtain ⟨hb2, hr2, hbl2⟩ := hcond
          rw [tryGrant_gewaehrt hfq hq2 hb2 hr2 hbl2]
          have hidf : ∀ a : Fahrstrasse,
              ((fun gs => if gs.fahrstrasse_id = q then
                  ({ gs with reserviert_fuer_zug_id := some k.zug_id, anforderungs_warteschlange := t } : Fahrstrasse)
                else if gs.fahrstrasse_id ∈ fsQ.konfligierende_fahrstrassen then
                  { gs with blockiert_durch_konflikt_ids :=
                      gs.blockiert_durch_konflikt_ids.insert q }
                else gs) a).fahrstrasse_id = a.fahrstrasse_id := by
            intro a
            dsimp only
            by_cases h1 : a.fahrstrasse_id = q
            · rw [if_pos h1]
            · rw [if_neg h1]
              by_cases h2 : a.fahrstrasse_id ∈ fsQ.konfligierende_fahrstrassen
              · rw [if_pos h2]
              · rw [if_neg h2]
          have hkonf : ∀ a : Fahrstrasse,
              ((fun gs => if gs.fahrstrasse_id = q then
                  ({ gs with reserviert_fuer_zug_id := some k.zug_id, anforderungs_warteschlange := t } : Fahrstrasse)
                else if gs.fahrstrasse_id ∈ fsQ.konfligierende_fahrstrassen then
                  { gs with blockiert_durch_konflikt_ids :=
                      gs.blockiert_durch_konflikt_ids.insert q }
                else gs) a).konfligierende_fahrstrassen =
                a.konfligierende_fahrstrassen := by
            intro a
            dsimp only
            by_cases h1 : a.fahrstrasse_id = q
            · rw [if_pos h1]
            · rw [if_neg h1]
              by_cases h2 : a.fahrstrasse_id ∈ fsQ.konfligierende_fahrstrassen
              · rw [if_pos h2]
              · rw [if_neg h2]
          have hg1 := find_nach_map hidf hg
          have hgid := findFahrstrasse_id hg
          rw [if_neg (show ¬g.fahrstrasse_id = q by
              rw [hgid]; exact hq_ne),
            if_neg (show g.fahrstrasse_id ∉ fsQ.konfligierende_fahrstrassen by
              rw [hgid]
              exact hkon q (List.mem_cons_self q r) fsQ hfq)] at hg1
          refine ih _ hg1 hsid_r ?_
          intro qid hqid fsQ2 hfind2
          rw [findFahrstrasse_map _ _ hidf qid] at hfind2
          cases hfq3 : findFahrstrasse st qid with
          | none =>
            rw [hfq3] at hfind2
            exact absurd hfind2 (by simp)
          | some fsQ3 =>
            rw [hfq3] at hfind2
            have heq : fsQ2 = _ := (Option.some.inj hfind2).symm
            rw [heq, hkonf fsQ3]
            exact hkon qid (List.mem_cons_of_mem _ hqid) fsQ3 hfq3
        · rw [tryGrant_nicht_frei hfq hcond]
          exact ih st hg hsid_r
            (fun qid hq fsq hf => hkon qid (List.mem_cons_of_mem _ hq) fsq hf)

lemma mem_entblockte (s : Stellwerk) (rid : String) (konf : List String)
    (x : String) :
    x ∈ entblockteRouten s rid konf ↔
      ∃ gs ∈ s.fahrstrassen, gs.fahrstrasse_id = x ∧ x ∈ konf ∧
        rid ∈ gs.blockiert_durch_konflikt_ids := by
  unfold entblockteRouten
  simp only [List.mem_map, List.mem_filter, decide_eq_true_eq]
  constructor
  · rintro ⟨gs, ⟨hgs, hk, hblk⟩, rfl⟩
    exact ⟨gs, hgs, rfl, hk, hblk⟩
  · rintro ⟨gs, hgs, hid, hk, hblk⟩
    subst hid
    exact ⟨gs, ⟨hgs, hk, hblk⟩, rfl⟩

lemma freigabe_propagiert (s : Stellwerk) (rid zid : String) (tick : ℕ)
    (fs : Fahrstrasse)
    (hnd : (s.fahrstrassen.map (·.fahrstrasse_id)).Nodup)
    (hf : findFahrstrasse s rid = some fs)
    (hb : fs.belegt_von_zug_id = some zid)
    (sid : String) (fsS : Fahrstrasse) (anf : RoutenAnforderung)
    (rest : List RoutenAnforderung)
    (hS : findFahrstrasse s sid = some fsS) (hne : sid ≠ rid)
    (hkonfS : sid ∈ fs.konfligierende_fahrstrassen)
    (hqS : fsS.anforderungs_warteschlange = anf :: rest)
    (hblkS : fsS.blockiert_durch_konflikt_ids = [rid])
    (hbS : fsS.belegt_von_zug_id = none)
    (hrS : fsS.reserviert_fuer_zug_id = none)
    (honly : ∀ gs ∈ s.fahrstrassen, gs.fahrstrasse_id ≠ sid →
      gs.fahrstrasse_id ∈ fs.konfligierende_fahrstrassen →
      rid ∈ gs.blockiert_durch_konflikt_ids →
      sid ∉ gs.konfligierende_fahrstrassen) :
    ∃ s' fsS', releaseRoute s rid zid tick = .ok s' ∧
      findFahrstrasse s' sid = some fsS' ∧
      fsS'.reserviert_fuer_zug_id = some anf.zug_id ∧
      fsS'.anforderungs_warteschlange = rest := by
  have hrel : releaseRoute s rid zid tick = .ok (kaskadiereGrants
      (sortiereIds (entblockteRouten s rid fs.konfligierende_fahrstrassen))
      (raeumeFahrstrasse s rid fs.konfligierende_fahrstrassen)) := by
    unfold releaseRoute
    simp only [hf]
    rw [if_pos hb]
  have hsid_id : fsS.fahrstrasse_id = sid := findFahrstrasse_id hS
  have hidf1 : ∀ a : Fahrstrasse,
      ((fun gs => if gs.fahrstrasse_id = rid then
          ({ gs with belegt_von_zug_id := none } : Fahrstrasse)
        else if gs.fahrstrasse_id ∈ fs.konfligierende_fahrstrassen then
          { gs with blockiert_durch_konflikt_ids :=
              gs.blockiert_durch_konflikt_ids.erase rid }
        else gs) a).fahrstrasse_id = a.fahrstrasse_id := by
    intro a
    dsimp only
    by_cases h1 : a.fahrstrasse_id = rid
    · rw [if_pos h1]
    · rw [if_neg h1]
      by_cases h2 : a.fahrstrasse_id ∈ fs.konfligierende_fahrstrassen
      · rw [if_pos h2]
      · rw [if_neg h2]
  have hkonf1 : ∀ a : Fahrstrasse,
      ((fun gs => if gs.fahrstrasse_id = rid then
          ({ gs with belegt_von_zug_id := none } : Fahrstrasse)
        else if gs.fahrstrasse_id ∈ fs.konfligierende_fahrstrassen then
          { gs with blockiert_durch_konflikt_ids :=
              gs.blockiert_durch_konflikt_ids.erase rid }
        else gs) a).konfligierende_fahrstrassen =
        a.konfligierende_fahrstrassen := by
    intro a
    dsimp only
    by_cases h1 : a.fahrstrasse_id = rid
    · rw [if_pos h1]
    · rw [if_neg h1]
      by_cases h2 : a.fahrstrasse_id ∈ fs.konfligierende_fahrstrassen
      · rw [if_pos h2]
      · rw [if_neg h2]
  have h1 := find_nach_map hidf1 hS
  rw [if_neg (show ¬fsS.fahrstrasse_id = rid by rw [hsid_id]; exact hne),
    if_pos (show fsS.fahrstrasse_id ∈ fs.konfligierende_fahrstrassen by
      rw [hsid_id]; exact hkonfS)] at h1
  have hblk1 : fsS.blockiert_durch_konflikt_ids.erase rid = [] := by
    rw [hblkS]
    exact List.erase_cons_head rid []
  have hmemge : sid ∈ entblockteRouten s rid fs.konfligierende_fahrstrassen :=
    (mem_entblockte s rid fs.konfligierende_fahrstrassen sid).mpr
      ⟨fsS, findFahrstrasse_mem hS, hsid_id, hkonfS,
        by rw [hblkS]; exact List.mem_cons_self rid []⟩
  have hnd_ge :
      (entblockteRouten s rid fs.konfligierende_fahrstrassen).Nodup := by
    unfold entblockteRouten
    exact List.Nodup.sublist ((List.filter_sublist _).map _) hnd
  have hnd_l :
      (sortiereIds (entblockteRouten s rid fs.konfligierende_fahrstrassen)).Nodup :=
    ((sortiereIds_perm _).nodup_iff).mpr hnd_ge
  have hmem_l :
      sid ∈ sortiereIds (entblockteRouten s rid fs.konfligierende_fahrstrassen) :=
    ((sortiereIds_perm _).mem_iff).mpr hmemge
  obtain ⟨l1, l2, hl⟩ := List.append_of_mem hmem_l
  rw [hl] at hnd_l
  have hnd_teile := List.nodup_append.mp hnd_l
  have hsid1 : sid ∉ l1 := fun hmem =>
    hnd_teile.2.2 hmem (List.mem_cons_self _ _)
  have hkon1 : ∀ qid ∈ l1, ∀ fsQ,
      findFahrstrasse (raeumeFahrstrasse s rid fs.konfligierende_fahrstrassen)
        qid = some fsQ →
      sid ∉ fsQ.konfligierende_fahrstrassen := by
    intro qid hqid fsQ hfind
    unfold raeumeFahrstrasse at hfind
    rw [findFahrstrasse_map _ _ hidf1 qid] at hfind
    cases hfq0 : findFahrstrasse s qid with
    | none =>
      rw [hfq0] at hfind
      exact absurd hfind (by simp)
    | some fsQ0 =>
      rw [hfq0] at hfind
      have heq : fsQ = _ := (Option.some.inj hfind).symm
      rw [heq, hkonf1 fsQ0]
      have hq_mem_ge : qid ∈
          entblockteRouten s rid fs.konfligierende_fahrstrassen := by
        refine ((sortiereIds_perm _).mem_iff).mp ?_
        rw [hl]
        exact List.mem_append_left _ hqid
      obtain ⟨gs, hgs, hgsid, hk, hblkq⟩ :=
        (mem_entblockte s rid fs.konfligierende_fahrstrassen qid).mp hq_mem_ge
      have hgseq : gs = fsQ0 := List.inj_on_of_nodup_map hnd hgs
        (findFahrstrasse_mem hfq0)
        (by rw [hgsid, findFahrstrasse_id hfq0])
      have hqid_ne : fsQ0.fahrstrasse_id ≠ sid := by
        rw [findFahrstrasse_id hfq0]
        exact fun h => hsid1 (h ▸ hqid)
      exact honly fsQ0 (findFahrstrasse_mem hfq0) hqid_ne
        (by rw [findFahrstrasse_id hfq0]; exact hk)
        (hgseq ▸ hblkq)
  have hfind2 := kaskade_unbeteiligt l1
    (raeumeFahrstrasse s rid fs.konfligierende_fahrstrassen) h1 hsid1 hkon1
  have hgrant := tryGrant_gewaehrt hfind2 hqS hbS hrS hblk1
  have hidf2 : ∀ a : Fahrstrasse,
      ((fun gs => if gs.fahrstrasse_id = sid then
          ({ gs with reserviert_fuer_zug_id := some anf.zug_id, anforderungs_warteschlange := rest } : Fahrstrasse)
        else if gs.fahrstrasse_id ∈ fsS.konfligierende_fahrstrassen then
          { gs with blockiert_durch_konflikt_ids :=
              gs.blockiert_durch_konflikt_ids.insert sid }
        else gs) a).fahrstrasse_id = a.fahrstrasse_id := by
    intro a
    dsimp only
    by_cases h1 : a.fahrstrasse_id = sid
    · rw [if_pos h1]
    · rw [if_neg h1]
      by_cases h2 : a.fahrstrasse_id ∈ fsS.konfligierende_fahrstrassen
      · rw [if_pos h2]
      · rw [if_neg h2]
  have hfind3 := find_nach_map hidf2 hfind2
  rw [if_pos (show fsS.fahrstrasse_id = sid from hsid_id)] at hfind3
  obtain ⟨g2, hg2, -, -, -, hcase⟩ := kaskadiereGrants_wirkung l2
    (show findFahrstrasse (tryGrant (kaskadiereGrants l1
        (raeumeFahrstrasse s rid fs.konfligierende_fahrstrassen)) sid).1 sid
      = some _ from by rw [hgrant]; exact hfind3)
  have hsplit : kaskadiereGrants
      (sortiereIds (entblockteRouten s rid fs.konfligierende_fahrstrassen))
      (raeumeFahrstrasse s rid fs.konfligierende_fahrstrassen) =
      kaskadiereGrants l2 (tryGrant (kaskadiereGrants l1
        (raeumeFahrstrasse s rid fs.konfligierende_fahrstrassen)) sid).1 := by
    rw [hl]
    unfold kaskadiereGrants
    rw [List.foldl_append, List.foldl_cons]
  refine ⟨_, g2, hrel, ?_, ?_, ?_⟩
  · rw [hsplit]
    exact hg2
  · rcases hcase with ⟨-, hr2⟩ | ⟨hrn, -, -⟩
    · exact hr2
    · exact absurd hrn (by simp)
  · rcases hcase with ⟨hq2, -⟩ | ⟨hrn, -, -⟩
    · exact hq2
    · exact absurd hrn (by simp)

/-- Counterexample to C4 as literally stated: in `kaskadenStellwerk`, route
`B` has a non-empty queue and `R` (occupied by `T1`) is its only blocker,
yet releasing `R` does not grant `B`'s head request: the same release also
unblocks `A`, which conflicts with `B` and is granted first in ascending id
order, re-blocking `B` within the same cascade. -/
theorem releaseRoute_kaskade_gegenbeispiel :
    ((findFahrstrasse kaskadenStellwerk "B").map (fun fs =>
      (fs.blockiert_durch_konflikt_ids, fs.anforderungs_warteschlange.length,
        fs.belegt_von_zug_id, fs.reserviert_fuer_zug_id)) =
      some (["R"], 1, none, none)) ∧
    ((releaseRoute kaskadenStellwerk "R" "T1" 5).toOption.bind (fun s' =>
      (findFahrstrasse s' "B").map (fun fs =>
        (fs.reserviert_fuer_zug_id, fs.anforderungs_warteschlange.length))) =
      some (none, 1)) ∧
    ((releaseRoute kaskadenStellwerk "R" "T1" 5).toOption.bind (fun s' =>
      (findFahrstrasse s' "A").map (fun fs =>
        fs.reserviert_fuer_zug_id)) = some (some "T2")) := by
  refine ⟨?_, ?_, ?_⟩ <;> decide

/-- C4 (amended): for a route occupied by train `zid`, `releaseRoute`
succeeds and equals the grant cascade over the cleared state: it clears
`occupiedBy`, removes the route's id from the blocked set of every
conflicting route (all other routes unchanged), and then calls `tryGrant`
on exactly the routes whose blocked set changed, in ascending
route-identity order.  Consequently, if the released route was the only
blocker of a free route `S` with a non-empty queue, and no other route
unblocked by the same release conflicts with `S`, then `S`'s head request
is granted within the same release. -/
theorem releaseRoute_wirkung_und_kaskade (s : Stellwerk) (rid zid : String)
    (tick : ℕ) (fs : Fahrstrasse)
    (hnd : (s.fahrstrassen.map (·.fahrstrasse_id)).Nodup)
    (hf : findFahrstrasse s rid = some fs)
    (hb : fs.belegt_von_zug_id = some zid) :
    releaseRoute s rid zid tick = .ok (kaskadiereGrants
      (sortiereIds (entblockteRouten s rid fs.konfligierende_fahrstrassen))
      (raeumeFahrstrasse s rid fs.konfligierende_fahrstrassen)) ∧
    List.Forall₂ (fun gs gs' =>
      (gs.fahrstrasse_id = rid → gs' = { gs with belegt_von_zug_id := none }) ∧
      (gs.fahrstrasse_id ≠ rid →
        gs.fahrstrasse_id ∈ fs.konfligierende_fahrstrassen →
        gs' = { gs with blockiert_durch_konflikt_ids := gs.blockiert_durch_konflikt_ids.erase rid }) ∧
      (gs.fahrstrasse_id ≠ rid →
        gs.fahrstrasse_id ∉ fs.konfligierende_fahrstrassen → gs' = gs))
      s.fahrstrassen
      (raeumeFahrstrasse s rid fs.konfligierende_fahrstrassen).fahrstrassen ∧
    (∀ x, x ∈ entblockteRouten s rid fs.konfligierende_fahrstrassen ↔
      ∃ gs ∈ s.fahrstrassen, gs.fahrstrasse_id = x ∧
        x ∈ fs.konfligierende_fahrstrassen ∧
        rid ∈ gs.blockiert_durch_konflikt_ids) ∧
    (sortiereIds
      (entblockteRouten s rid fs.konfligierende_fahrstrassen)).Pairwise (· ≤ ·) ∧
    (sortiereIds (entblockteRouten s rid fs.konfligierende_fahrstrassen)).Perm
      (entblockteRouten s rid fs.konfligierende_fahrstrassen) ∧
    (∀ (sid : String) (fsS : Fahrstrasse) (anf : RoutenAnforderung)
        (rest : List RoutenAnforderung),
      findFahrstrasse s sid = some fsS → sid ≠ rid →
      sid ∈ fs.konfligierende_fahrstrassen →
      fsS.anforderungs_warteschlange = anf :: rest →
      fsS.blockiert_durch_konflikt_ids = [rid] →
      fsS.belegt_von_zug_id = none →
      fsS.reserviert_fuer_zug_id = none →
      (∀ gs ∈ s.fahrstrassen, gs.fahrstrasse_id ≠ sid →
        gs.fahrstrasse_id ∈ fs.konfligierende_fahrstrassen →
        rid ∈ gs.blockiert_durch_konflikt_ids →
        sid ∉ gs.konfligierende_fahrstrassen) →
      ∃ s' fsS', releaseRoute s rid zid tick = .ok s' ∧
        findFahrstrasse s' sid = some fsS' ∧
        fsS'.reserviert_fuer_zug_id = some anf.zug_id ∧
        fsS'.anforderungs_warteschlange = rest) := by
  refine ⟨?_, ?_, fun x => mem_entblockte s rid fs.konfligierende_fahrstrassen x,
    sortiereIds_sortiert _, sortiereIds_perm _, ?_⟩
  · unfold releaseRoute
    simp only [hf]
    rw [if_pos hb]
  · apply forall₂_map_selbst
    intro a ha
    refine ⟨?_, ?_, ?_⟩
    · intro h1
      simp only [if_pos h1]
    · intro h1 h2
      simp only [if_neg h1, if_pos h2]
    · intro h1 h2
      simp only [if_neg h1, if_neg h2]
  · intro sid fsS anf rest hS hne hkonfS hqS hblkS hbS hrS honly
    exact freigabe_propagiert s rid zid tick fs hnd hf hb sid fsS anf rest
      hS hne hkonfS hqS hblkS hbS hrS honly

/-- Witness for C4 on the concrete release scenario: releasing `R`
(occupied by `T1`, sole blocker of `S`) grants `S`'s queued request of
train `T2` in the same release. -/
theorem releaseRoute_wirkung_und_kaskade_zeuge :
    (freigabeStellwerk.fahrstrassen.map (·.fahrstrasse_id)).Nodup ∧
    findFahrstrasse freigabeStellwerk "R" = some
      { fahrstrasse_id := "R", gleisabschnitte := ["g1"],
        von_knoten_id := "s1", bis_knoten_id := "s2", laenge := 100,
        konfligierende_fahrstrassen := ["S"],
        belegt_von_zug_id := some "T1" } ∧
    ∃ s' fsS', releaseRoute freigabeStellwerk "R" "T1" 9 = .ok s' ∧
      findFahrstrasse s' "S" = some fsS' ∧
      fsS'.reserviert_fuer_zug_id = some "T2" ∧
      fsS'.anforderungs_warteschlange = [] :=
  ⟨by decide, rfl,
    (releaseRoute_wirkung_und_kaskade freigabeStellwerk "R" "T1" 9 _
      (by decide) rfl rfl).2.2.2.2.2 "S" _ ⟨"T2", "S", 4⟩ []
      rfl (by decide) (by decide) rfl rfl rfl rfl (by decide)⟩
